import Mathlib

/-!
# node-osc4bitwig: shallow embedding of the state-synchronization core

This file embeds the state-mirroring core of the node-osc4bitwig client
(src/index.js, src/lib/song.js, src/lib/clip.js) and proves properties of it.

Modelling conventions:

* JavaScript values delivered by the OSC transport, and entity fields, are a
  closed sum `JSValue` with an explicit `undef` for fields that a constructor
  never initializes.
* Every inbound listener body in the source is a sequence of statements:
  zero or more event emissions followed by one field assignment.  A listener
  body is embedded as a `List HOp` of those statements, in source order, and
  `runOps` executes them, pairing each emitted event with the state that was
  current at the moment of emission (so that what an observer re-reading a
  field during event dispatch sees is recorded).
* The whole entity tree lives in one `Song` value; a listener's closure over
  its own Track/Clip object is rendered as an update of every track/clip in
  the tree whose id matches (ids are distinct in every constructed tree).
* Outbound command methods are functions returning the (unchanged) receiver
  together with the list of messages handed to the transport adapter.
-/

namespace Osc4Bitwig

/-- A loosely-typed JavaScript value as delivered by the transport or stored
in an entity field.  `undef` is JavaScript undefined, the value of a field
that was never assigned. -/
inductive JSValue where
  | undef : JSValue
  | num : Int → JSValue
  | str : String → JSValue
  | bool : Bool → JSValue
deriving Repr, DecidableEq

/-- JavaScript truthiness, as used by the if-tests in Song.prototype.loop and
Song.prototype.setClick. -/
def JSValue.truthy : JSValue → Bool
  | .undef => false
  | .num n => n != 0
  | .str s => !s.isEmpty
  | .bool b => b

/-- One positional argument of an outbound OSC message: the source passes
either an explicit typed pair (an object with type and value) or a bare
value to emitter.emit. -/
inductive OutArg where
  | typed (ty : String) (v : JSValue)
  | bare (v : JSValue)
deriving Repr, DecidableEq

/-- An outbound message handed to the transport adapter: the literal address
string and the positional arguments in order. -/
structure OutMsg where
  address : String
  args : List OutArg
deriving Repr, DecidableEq

/-- One track send slot (song.js Track constructor: sends[i] = \x7bname: '',
volume: 0\x7d). -/
structure SendSlot where
  name : JSValue
  volume : JSValue
deriving Repr, DecidableEq

/-- One device-parameter slot (song.js Song constructor: fxparams[i] =
\x7bname: '', value: 0\x7d). -/
structure FxParam where
  name : JSValue
  value : JSValue
deriving Repr, DecidableEq

/-- A Clip (clip.js).  `trackId` is the id of the owning track (the source
keeps a back-reference to the Track object; only its id is ever read). -/
structure Clip where
  trackId : Nat
  id : Nat
  index : JSValue
  isSelected : JSValue
  hasContent : JSValue
  isPlaying : JSValue
  isRecording : JSValue
  isQueued : JSValue
deriving Repr, DecidableEq

/-- Clip constructor field initialization (clip.js lines 16-78). -/
def Clip.init (trackId id : Nat) : Clip :=
  { trackId := trackId, id := id,
    index := .num 0, isSelected := .bool false, hasContent := .bool false,
    isPlaying := .bool false, isRecording := .bool false, isQueued := .bool false }

/-- A Track (song.js second module, Track constructor).  `name` and `vu` are
never initialized by the constructor, so they start undefined; `recarm` is
initialized to the Boolean false (not 0); `numScenes` is only ever assigned
by setNumScenes. -/
structure Track where
  id : Nat
  clips : List Clip
  sends : List SendSlot
  solo : JSValue
  mute : JSValue
  recarm : JSValue
  volume : JSValue
  pan : JSValue
  selected : JSValue
  name : JSValue
  vu : JSValue
  numScenes : Option Nat
deriving Repr, DecidableEq

/-- Track constructor field initialization: eight clips with ids 0..7,
six send slots, numeric fields 0, recarm false, name and vu undefined. -/
def Track.init (id : Nat) : Track :=
  { id := id,
    clips := (List.range 8).map (fun i => Clip.init id i),
    sends := List.replicate 6 { name := .str "", volume := .num 0 },
    solo := .num 0, mute := .num 0, recarm := .bool false,
    volume := .num 0, pan := .num 0, selected := .num 0,
    name := .undef, vu := .undef, numScenes := none }

/-- The Song (session root, song.js first module).  The master-bus fields
`solo`, `mute`, `recarm`, `selected` are never initialized by the
constructor, so they start undefined. -/
structure Song where
  tracks : List Track
  fxparams : List FxParam
  volume : JSValue
  pan : JSValue
  click : JSValue
  playing : JSValue
  recording : JSValue
  selectedTrack : JSValue
  solo : JSValue
  mute : JSValue
  recarm : JSValue
  selected : JSValue
deriving Repr, DecidableEq

/-- Song constructor field initialization: eight tracks with 1-indexed ids
1..8, eight device-parameter slots, numeric fields 0, master-bus
solo/mute/recarm/selected left undefined. -/
def Song.init : Song :=
  { tracks := (List.range 8).map (fun i => Track.init (i + 1)),
    fxparams := List.replicate 8 { name := .str "", value := .num 0 },
    volume := .num 0, pan := .num 0, click := .num 0,
    playing := .num 0, recording := .num 0, selectedTrack := .num 0,
    solo := .undef, mute := .undef, recarm := .undef, selected := .undef }

/-- Which listener registry an event is delivered to: the Song's own emitter,
a Track's local emitter, or a Clip's local emitter. -/
inductive Registry where
  | session
  | trackLocal (trackId : Nat)
  | clipLocal (trackId : Nat) (clipId : Nat)
deriving Repr, DecidableEq

/-- The payload object passed to an event emission.  `num` is present on
send events; `id` and `trackId` are merged in by Track.prototype.emitEvent
and Clip.prototype.emitEvent for the session-level re-emission. -/
structure EventParams where
  value : JSValue := .undef
  prev : JSValue := .undef
  num : Option JSValue := none
  id : Option Nat := none
  trackId : Option Nat := none
deriving Repr, DecidableEq

/-- An emitted event: target registry, event name, payload. -/
structure Event where
  registry : Registry
  name : String
  params : EventParams
deriving Repr, DecidableEq

/-- One statement of an inbound-listener body: an event emission (whose
payload may read the current state) or a field assignment. -/
inductive HOp where
  | emit (mk : Song → Event)
  | mut (f : Song → Song)

/-- Run a listener body statement by statement.  Each emitted event is
paired with the state current at the moment of emission. -/
def runOps : Song → List HOp → Song × List (Song × Event)
  | s, [] => (s, [])
  | s, HOp.emit mk :: rest =>
    let r := runOps s rest
    (r.1, (s, mk s) :: r.2)
  | s, HOp.mut f :: rest => runOps (f s) rest

/-- Find the track with a given id (the object a listener closed over). -/
def Song.findTrack (s : Song) (id : Nat) : Option Track :=
  s.tracks.find? (fun t => t.id == id)

/-- Apply an update to every track whose id matches (in every constructed
tree ids are distinct, so this is the single closed-over Track object). -/
def Song.updTrack (s : Song) (id : Nat) (f : Track → Track) : Song :=
  { s with tracks := s.tracks.map (fun t => if t.id == id then f t else t) }

/-- Find the clip with a given id inside a track. -/
def Track.findClip (t : Track) (cid : Nat) : Option Clip :=
  t.clips.find? (fun c => c.id == cid)

/-- Apply an update to every clip of the track whose id matches. -/
def Track.updClip (t : Track) (cid : Nat) (f : Clip → Clip) : Track :=
  { t with clips := t.clips.map (fun c => if c.id == cid then f c else c) }

/-- Read a field of the track with the given id (undefined if absent). -/
def Song.trackField (s : Song) (id : Nat) (rf : Track → JSValue) : JSValue :=
  match s.findTrack id with
  | none => .undef
  | some t => rf t

/-- Read a field of the clip with the given ids (undefined if absent). -/
def Song.clipField (s : Song) (tid cid : Nat) (rf : Clip → JSValue) : JSValue :=
  match s.findTrack tid with
  | none => .undef
  | some t =>
    match t.findClip cid with
    | none => .undef
    | some c => rf c

/-- In-place update of a list element at an index (JavaScript
xs[i].field = v on an array of objects); out of range leaves the list
unchanged (unreachable: the source only indexes within the ranges it
allocated). -/
def modifyAt {α : Type} : Nat → (α → α) → List α → List α
  | _, _, [] => []
  | 0, f, x :: xs => f x :: xs
  | Nat.succ j, f, x :: xs => x :: modifyAt j f xs

/-- song.js playListener: emit the play event carrying the previous value,
then assign the field.  Note the emission precedes the assignment, as in
every listener of this source. -/
def playOps (v : JSValue) : List HOp :=
  [ .emit (fun s => ⟨.session, "play", { value := v, prev := s.playing }⟩),
    .mut (fun s => { s with playing := v }) ]

/-- song.js recordListener. -/
def recordOps (v : JSValue) : List HOp :=
  [ .emit (fun s => ⟨.session, "record", { value := v, prev := s.recording }⟩),
    .mut (fun s => { s with recording := v }) ]

/-- song.js clickListener. -/
def clickOps (v : JSValue) : List HOp :=
  [ .emit (fun s => ⟨.session, "click", { value := v, prev := s.click }⟩),
    .mut (fun s => { s with click := v }) ]

/-- song.js soloListener (master bus). -/
def masterSoloOps (v : JSValue) : List HOp :=
  [ .emit (fun s => ⟨.session, "solo", { value := v, prev := s.solo }⟩),
    .mut (fun s => { s with solo := v }) ]

/-- song.js muteListener (master bus). -/
def masterMuteOps (v : JSValue) : List HOp :=
  [ .emit (fun s => ⟨.session, "mute", { value := v, prev := s.mute }⟩),
    .mut (fun s => { s with mute := v }) ]

/-- song.js recarmListener (master bus). -/
def masterRecarmOps (v : JSValue) : List HOp :=
  [ .emit (fun s => ⟨.session, "recarm", { value := v, prev := s.recarm }⟩),
    .mut (fun s => { s with recarm := v }) ]

/-- song.js volumeListener (master bus). -/
def masterVolumeOps (v : JSValue) : List HOp :=
  [ .emit (fun s => ⟨.session, "volume", { value := v, prev := s.volume }⟩),
    .mut (fun s => { s with volume := v }) ]

/-- song.js panListener (master bus). -/
def masterPanOps (v : JSValue) : List HOp :=
  [ .emit (fun s => ⟨.session, "pan", { value := v, prev := s.pan }⟩),
    .mut (fun s => { s with pan := v }) ]

/-- song.js selectedListener (master bus). -/
def masterSelectedOps (v : JSValue) : List HOp :=
  [ .emit (fun s => ⟨.session, "selected", { value := v, prev := s.selected }⟩),
    .mut (fun s => { s with selected := v }) ]

/-- song.js fxparam name listener: assigns fxparams[i].name directly and
emits nothing. -/
def fxparamNameOps (i : Nat) (v : JSValue) : List HOp :=
  [ .mut (fun s =>
      { s with fxparams := modifyAt i (fun p => { p with name := v }) s.fxparams }) ]

/-- song.js fxparam value listener: assigns fxparams[i].value directly and
emits nothing. -/
def fxparamValueOps (i : Nat) (v : JSValue) : List HOp :=
  [ .mut (fun s =>
      { s with fxparams := modifyAt i (fun p => { p with value := v }) s.fxparams }) ]

/-- Track.prototype.emitEvent: emit on the track's own emitter first, then
on the song's emitter under a track-namespaced key with the track id merged
into the payload. -/
def trackEmit (id : Nat) (ev : String) (p : Song → EventParams) : List HOp :=
  [ .emit (fun s => ⟨.trackLocal id, ev, p s⟩),
    .emit (fun s => ⟨.session, "track:" ++ ev, { p s with id := some id }⟩) ]

/-- The shared shape of the seven track field listeners
(soloListener/recarmListener/muteListener/volumeListener/panListener/
vuListener/selectedListener in the Track constructor): call emitEvent with
the new value and the current field as prev, then assign the field. -/
def trackFieldOps (id : Nat) (ev : String) (rf : Track → JSValue)
    (wf : Track → Track) (v : JSValue) : List HOp :=
  trackEmit id ev (fun s => { value := v, prev := s.trackField id rf }) ++
  [ .mut (fun s => s.updTrack id wf) ]

/-- Track sendNameListener: emitEvent with num, the new name, and prev read
from the TRACK's own name field (not the send slot); then assign
sends[i].name. -/
def sendNameOps (id i : Nat) (v : JSValue) : List HOp :=
  trackEmit id "sendName"
    (fun s => { num := some (.num i), value := v, prev := s.trackField id (fun t => t.name) }) ++
  [ .mut (fun s => s.updTrack id
      (fun t => { t with sends := modifyAt i (fun sl => { sl with name := v }) t.sends })) ]

/-- Track sendVolumeListener: emitEvent with num, the new volume, and prev
read from the TRACK's own volume field (not the send slot); then assign
sends[i].volume. -/
def sendVolumeOps (id i : Nat) (v : JSValue) : List HOp :=
  trackEmit id "sendVolume"
    (fun s => { num := some (.num i), value := v, prev := s.trackField id (fun t => t.volume) }) ++
  [ .mut (fun s => s.updTrack id
      (fun t => { t with sends := modifyAt i (fun sl => { sl with volume := v }) t.sends })) ]

/-- Clip.prototype.emitEvent: emit on the clip's own emitter first, then on
the song's emitter under a clip-namespaced key with the clip id and track id
merged into the payload. -/
def clipEmit (tid cid : Nat) (ev : String) (p : Song → EventParams) : List HOp :=
  [ .emit (fun s => ⟨.clipLocal tid cid, ev, p s⟩),
    .emit (fun s => ⟨.session, "clip:" ++ ev, { p s with id := some cid, trackId := some tid }⟩) ]

/-- The shared shape of the six clip field listeners (indexListener,
isSelectedListener, hasContentListener, isPlayingListener,
isRecordingListener, isQueuedListener in clip.js): call emitEvent with the
new value and the current field as prev, then assign the field. -/
def clipFieldOps (tid cid : Nat) (ev : String) (rf : Clip → JSValue)
    (wf : Clip → Clip) (v : JSValue) : List HOp :=
  clipEmit tid cid ev (fun s => { value := v, prev := s.clipField tid cid rf }) ++
  [ .mut (fun s => s.updTrack tid (fun t => t.updClip cid wf)) ]

/-- The inbound address space, structurally.  Each constructor corresponds to
one literal subscription string of the source; rendering to the wire string
is injective over this type, so dispatch by structural address coincides
with the source's dispatch by string equality.  `fxparamName i` and
`fxparamValue i` carry the internal index i (the wire address uses i+1);
track ids are the 1-indexed wire ids; clip slot addresses carry the
0-indexed clip id directly. -/
inductive Addr where
  | play | record | click
  | masterSolo | masterMute | masterRecarm | masterVolume | masterPan | masterSelected
  | fxparamName (i : Nat) | fxparamValue (i : Nat)
  | trackSolo (id : Nat) | trackRecarm (id : Nat) | trackMute (id : Nat)
  | trackPan (id : Nat) | trackVolume (id : Nat) | trackVu (id : Nat)
  | trackSelected (id : Nat) | trackName (id : Nat)
  | sendName (id : Nat) (i : Nat) | sendVolume (id : Nat) (i : Nat)
  | slotIndex (tid : Nat) (cid : Nat) | slotIsSelected (tid : Nat) (cid : Nat)
  | slotHasContent (tid : Nat) (cid : Nat) | slotIsPlaying (tid : Nat) (cid : Nat)
  | slotIsRecording (tid : Nat) (cid : Nat) | slotIsQueued (tid : Nat) (cid : Nat)
deriving Repr, DecidableEq

/-- The literal wire address string each Addr constructor stands for,
exactly as the source builds it by string concatenation. -/
def Addr.render : Addr → String
  | .play => "/play"
  | .record => "/record"
  | .click => "/click"
  | .masterSolo => "/master/solo"
  | .masterMute => "/master/mute"
  | .masterRecarm => "/master/recarm"
  | .masterVolume => "/master/volume"
  | .masterPan => "/master/pan"
  | .masterSelected => "/master/selected"
  | .fxparamName i => "/fxparam/" ++ toString (i + 1) ++ "/name"
  | .fxparamValue i => "/fxparam/" ++ toString (i + 1) ++ "/value"
  | .trackSolo id => "/track/" ++ toString id ++ "/solo"
  | .trackRecarm id => "/track/" ++ toString id ++ "/recarm"
  | .trackMute id => "/track/" ++ toString id ++ "/mute"
  | .trackPan id => "/track/" ++ toString id ++ "/pan"
  | .trackVolume id => "/track/" ++ toString id ++ "/volume"
  | .trackVu id => "/track/" ++ toString id ++ "/vu"
  | .trackSelected id => "/track/" ++ toString id ++ "/selected"
  | .trackName id => "/track/" ++ toString id ++ "/name"
  | .sendName id i => "/track/" ++ toString id ++ "/send/" ++ toString i ++ "/name"
  | .sendVolume id i => "/track/" ++ toString id ++ "/send/" ++ toString i ++ "/volume"
  | .slotIndex tid cid => "/track/" ++ toString tid ++ "/slot/" ++ toString cid ++ "/index"
  | .slotIsSelected tid cid => "/track/" ++ toString tid ++ "/slot/" ++ toString cid ++ "/isSelected"
  | .slotHasContent tid cid => "/track/" ++ toString tid ++ "/slot/" ++ toString cid ++ "/hasContent"
  | .slotIsPlaying tid cid => "/track/" ++ toString tid ++ "/slot/" ++ toString cid ++ "/isPlaying"
  | .slotIsRecording tid cid => "/track/" ++ toString tid ++ "/slot/" ++ toString cid ++ "/isRecording"
  | .slotIsQueued tid cid => "/track/" ++ toString tid ++ "/slot/" ++ toString cid ++ "/isQueued"

/-- Is a listener registered for this address?  The Song subscribes its nine
transport and master-bus addresses at construction; each constructed Track
its seven field addresses and the send addresses for the six indices of
underscore range(6); each constructed Clip its six slot addresses; the
fxparam addresses are registered for the eight indices of range(8).
/track/id/name has NO listener: nameListener is defined in the Track
constructor but never passed to receiver.on (song.js registration block). -/
def subscribed (s : Song) : Addr → Bool
  | .play | .record | .click | .masterSolo | .masterMute | .masterRecarm
  | .masterVolume | .masterPan | .masterSelected => true
  | .fxparamName i | .fxparamValue i => decide (i < 8)
  | .trackSolo id | .trackRecarm id | .trackMute id | .trackPan id
  | .trackVolume id | .trackVu id | .trackSelected id =>
      s.tracks.any (fun t => t.id == id)
  | .trackName _ => false
  | .sendName id i | .sendVolume id i =>
      s.tracks.any (fun t => t.id == id) && decide (i < 6)
  | .slotIndex tid cid | .slotIsSelected tid cid | .slotHasContent tid cid
  | .slotIsPlaying tid cid | .slotIsRecording tid cid | .slotIsQueued tid cid =>
      s.tracks.any (fun t => t.id == tid && t.clips.any (fun c => c.id == cid))

/-- The listener body registered for an address (empty when no listener is
registered). -/
def opsFor (s : Song) (a : Addr) (v : JSValue) : List HOp :=
  if subscribed s a then
    match a with
    | .play => playOps v
    | .record => recordOps v
    | .click => clickOps v
    | .masterSolo => masterSoloOps v
    | .masterMute => masterMuteOps v
    | .masterRecarm => masterRecarmOps v
    | .masterVolume => masterVolumeOps v
    | .masterPan => masterPanOps v
    | .masterSelected => masterSelectedOps v
    | .fxparamName i => fxparamNameOps i v
    | .fxparamValue i => fxparamValueOps i v
    | .trackSolo id => trackFieldOps id "solo" (fun t => t.solo) (fun t => { t with solo := v }) v
    | .trackRecarm id => trackFieldOps id "recarm" (fun t => t.recarm) (fun t => { t with recarm := v }) v
    | .trackMute id => trackFieldOps id "mute" (fun t => t.mute) (fun t => { t with mute := v }) v
    | .trackPan id => trackFieldOps id "pan" (fun t => t.pan) (fun t => { t with pan := v }) v
    | .trackVolume id => trackFieldOps id "volume" (fun t => t.volume) (fun t => { t with volume := v }) v
    | .trackVu id => trackFieldOps id "vu" (fun t => t.vu) (fun t => { t with vu := v }) v
    | .trackSelected id => trackFieldOps id "selected" (fun t => t.selected) (fun t => { t with selected := v }) v
    | .trackName _ => []
    | .sendName id i => sendNameOps id i v
    | .sendVolume id i => sendVolumeOps id i v
    | .slotIndex tid cid => clipFieldOps tid cid "index" (fun c => c.index) (fun c => { c with index := v }) v
    | .slotIsSelected tid cid => clipFieldOps tid cid "isSelected" (fun c => c.isSelected) (fun c => { c with isSelected := v }) v
    | .slotHasContent tid cid => clipFieldOps tid cid "hasContent" (fun c => c.hasContent) (fun c => { c with hasContent := v }) v
    | .slotIsPlaying tid cid => clipFieldOps tid cid "isPlaying" (fun c => c.isPlaying) (fun c => { c with isPlaying := v }) v
    | .slotIsRecording tid cid => clipFieldOps tid cid "isRecording" (fun c => c.isRecording) (fun c => { c with isRecording := v }) v
    | .slotIsQueued tid cid => clipFieldOps tid cid "isQueued" (fun c => c.isQueued) (fun c => { c with isQueued := v }) v
  else []

/-- Deliver one inbound message: run the registered listener body.  Returns
the post-dispatch state and the emitted events, each paired with the state
current at its moment of emission. -/
def dispatch (s : Song) (a : Addr) (v : JSValue) : Song × List (Song × Event) :=
  runOps s (opsFor s a v)

/-- The mirrored field an inbound address tracks, read from the state. -/
def readField (s : Song) : Addr → JSValue
  | .play => s.playing
  | .record => s.recording
  | .click => s.click
  | .masterSolo => s.solo
  | .masterMute => s.mute
  | .masterRecarm => s.recarm
  | .masterVolume => s.volume
  | .masterPan => s.pan
  | .masterSelected => s.selected
  | .fxparamName i =>
    match s.fxparams.get? i with
    | some p => p.name
    | none => .undef
  | .fxparamValue i =>
    match s.fxparams.get? i with
    | some p => p.value
    | none => .undef
  | .trackSolo id => s.trackField id (fun t => t.solo)
  | .trackRecarm id => s.trackField id (fun t => t.recarm)
  | .trackMute id => s.trackField id (fun t => t.mute)
  | .trackPan id => s.trackField id (fun t => t.pan)
  | .trackVolume id => s.trackField id (fun t => t.volume)
  | .trackVu id => s.trackField id (fun t => t.vu)
  | .trackSelected id => s.trackField id (fun t => t.selected)
  | .trackName id => s.trackField id (fun t => t.name)
  | .sendName id i => s.trackField id (fun t =>
      match t.sends.get? i with
      | some sl => sl.name
      | none => .undef)
  | .sendVolume id i => s.trackField id (fun t =>
      match t.sends.get? i with
      | some sl => sl.volume
      | none => .undef)
  | .slotIndex tid cid => s.clipField tid cid (fun c => c.index)
  | .slotIsSelected tid cid => s.clipField tid cid (fun c => c.isSelected)
  | .slotHasContent tid cid => s.clipField tid cid (fun c => c.hasContent)
  | .slotIsPlaying tid cid => s.clipField tid cid (fun c => c.isPlaying)
  | .slotIsRecording tid cid => s.clipField tid cid (fun c => c.isRecording)
  | .slotIsQueued tid cid => s.clipField tid cid (fun c => c.isQueued)

/-- Song.prototype.stop: emitter.emit of /stop with bare 1.  Like every
outbound command method, the body is a single emitter.emit call with no
assignment, so the receiver is returned unchanged. -/
def Song.stop (s : Song) : Song × List OutMsg :=
  (s, [{ address := "/stop", args := [.bare (.num 1)] }])

/-- Song.prototype.play: emitter.emit of /play with bare 1. -/
def Song.play (s : Song) : Song × List OutMsg :=
  (s, [{ address := "/play", args := [.bare (.num 1)] }])

/-- Song.prototype.record: emitter.emit of /record with no arguments. -/
def Song.record (s : Song) : Song × List OutMsg :=
  (s, [{ address := "/record", args := [] }])

/-- Song.prototype.loop: /repeat with bare 1 when forceOn is truthy, else
/repeat with no arguments. -/
def Song.loop (s : Song) (forceOn : JSValue) : Song × List OutMsg :=
  if forceOn.truthy then (s, [{ address := "/repeat", args := [.bare (.num 1)] }])
  else (s, [{ address := "/repeat", args := [] }])

/-- Song.prototype.setClick: /click with bare 1 when state is truthy, else
/click with no arguments. -/
def Song.setClick (s : Song) (state : JSValue) : Song × List OutMsg :=
  if state.truthy then (s, [{ address := "/click", args := [.bare (.num 1)] }])
  else (s, [{ address := "/click", args := [] }])

/-- Song.prototype.launchScene: /scene/n/launch with no arguments. -/
def Song.launchScene (s : Song) (scene : Nat) : Song × List OutMsg :=
  (s, [{ address := "/scene/" ++ toString scene ++ "/launch", args := [] }])

/-- Song.prototype.setVolume: /master/volume with one integer-typed
argument. -/
def Song.setVolume (s : Song) (volume : JSValue) : Song × List OutMsg :=
  (s, [{ address := "/master/volume", args := [.typed "integer" volume] }])

/-- Song.prototype.setPan: /master/pan with one integer-typed argument. -/
def Song.setPan (s : Song) (pan : JSValue) : Song × List OutMsg :=
  (s, [{ address := "/master/pan", args := [.typed "integer" pan] }])

/-- Song.prototype.setTempo: /tempo/raw with one integer-typed argument. -/
def Song.setTempo (s : Song) (tempo : JSValue) : Song × List OutMsg :=
  (s, [{ address := "/tempo/raw", args := [.typed "integer" tempo] }])

/-- Song.prototype.setTime: /time with one integer-typed argument. -/
def Song.setTime (s : Song) (time : JSValue) : Song × List OutMsg :=
  (s, [{ address := "/time", args := [.typed "integer" time] }])

/-- Song.prototype.toggleFxBypass: /fx/bypass with no arguments. -/
def Song.toggleFxBypass (s : Song) : Song × List OutMsg :=
  (s, [{ address := "/fx/bypass", args := [] }])

/-- Song.prototype.select: /master/select with no arguments. -/
def Song.select (s : Song) : Song × List OutMsg :=
  (s, [{ address := "/master/select", args := [] }])

/-- Track.prototype.setName: /track/id/name with one string-typed
argument. -/
def Track.setName (t : Track) (name : JSValue) : Track × List OutMsg :=
  (t, [{ address := "/track/" ++ toString t.id ++ "/name",
         args := [.typed "string" name] }])

/-- Track.prototype.setRecarm: /track/id/arm (note: arm, not recarm) with
one integer-typed argument. -/
def Track.setRecarm (t : Track) (recarm : JSValue) : Track × List OutMsg :=
  (t, [{ address := "/track/" ++ toString t.id ++ "/arm",
         args := [.typed "integer" recarm] }])

/-- Track.prototype.setSolo: /track/id/solo with one integer-typed
argument. -/
def Track.setSolo (t : Track) (solo : JSValue) : Track × List OutMsg :=
  (t, [{ address := "/track/" ++ toString t.id ++ "/solo",
         args := [.typed "integer" solo] }])

/-- Track.prototype.setMute: /track/id/mute with one integer-typed
argument. -/
def Track.setMute (t : Track) (mute : JSValue) : Track × List OutMsg :=
  (t, [{ address := "/track/" ++ toString t.id ++ "/mute",
         args := [.typed "integer" mute] }])

/-- Track.prototype.setVolume: /track/id/volume with one integer-typed
argument. -/
def Track.setVolume (t : Track) (volume : JSValue) : Track × List OutMsg :=
  (t, [{ address := "/track/" ++ toString t.id ++ "/volume",
         args := [.typed "integer" volume] }])

/-- Track.prototype.setPan: /track/id/pan with one float-typed argument. -/
def Track.setPan (t : Track) (pan : JSValue) : Track × List OutMsg :=
  (t, [{ address := "/track/" ++ toString t.id ++ "/pan",
         args := [.typed "float" pan] }])

/-- Track.prototype.setSendName: /track/id/send/send/name with one
string-typed argument. -/
def Track.setSendName (t : Track) (send : Nat) (name : JSValue) : Track × List OutMsg :=
  (t, [{ address := "/track/" ++ toString t.id ++ "/send/" ++ toString send ++ "/name",
         args := [.typed "string" name] }])

/-- Track.prototype.view: /track/#/track/view with the track id as one
integer-typed argument. -/
def Track.view (t : Track) : Track × List OutMsg :=
  (t, [{ address := "/track/#/track/view", args := [.typed "integer" (.num t.id)] }])

/-- Track.prototype.setNumScenes: assigns this.numScenes, sends nothing. -/
def Track.setNumScenes (t : Track) (numScenes : Nat) : Track :=
  { t with numScenes := some numScenes }

/-- Track.prototype.refreshClips.  The source first iterates clip.destroy()
over every existing clip, but Clip.prototype defines no destroy method
(clip.js defines only launch, on and emitEvent), so in JavaScript the first
iteration raises TypeError: clip.destroy is not a function and the method
aborts with the track unchanged; this is modelled as an error result as
soon as the clips list is nonempty.  On the (constructor-unreachable)
empty-clips path the method builds numScenes fresh clips and sends one
/track/#/clip/info request per index; an unset numScenes behaves as 0
because the for-loop bound comparison i less-than undefined is false. -/
def Track.refreshClips (t : Track) : Except String (Track × List OutMsg) :=
  match t.clips with
  | _ :: _ => .error "TypeError: clip.destroy is not a function"
  | [] =>
    let n := t.numScenes.getD 0
    .ok ({ t with clips := (List.range n).map (fun i => Clip.init t.id i) },
      (List.range n).map (fun i =>
        { address := "/track/#/clip/info",
          args := [.typed "integer" (.num t.id), .typed "integer" (.num i)] }))

/-- Clip.prototype.launch: /track/trackId/clip/(id+1)/launch with no
arguments; the 0-indexed internal clip id is shifted by 1 on the wire. -/
def Clip.launch (c : Clip) : Clip × List OutMsg :=
  (c, [{ address := "/track/" ++ toString c.trackId ++ "/clip/" ++ toString (c.id + 1) ++ "/launch",
         args := [] }])

/-- The two events Track.prototype.emitEvent produces for a plain track
field change, paired with the emission state. -/
def trackEvts (s : Song) (id : Nat) (ev : String) (v pr : JSValue) : List (Song × Event) :=
  [ (s, ⟨.trackLocal id, ev, { value := v, prev := pr }⟩),
    (s, ⟨.session, "track:" ++ ev, { value := v, prev := pr, id := some id }⟩) ]

/-- The two events Clip.prototype.emitEvent produces for a clip field
change, paired with the emission state. -/
def clipEvts (s : Song) (tid cid : Nat) (ev : String) (v pr : JSValue) : List (Song × Event) :=
  [ (s, ⟨.clipLocal tid cid, ev, { value := v, prev := pr }⟩),
    (s, ⟨.session, "clip:" ++ ev, { value := v, prev := pr, id := some cid, trackId := some tid }⟩) ]

/-- The two events Track.prototype.emitEvent produces for a send sub-field
change, paired with the emission state. -/
def sendEvts (s : Song) (id : Nat) (ev : String) (i : Nat) (v pr : JSValue) : List (Song × Event) :=
  [ (s, ⟨.trackLocal id, ev, { value := v, prev := pr, num := some (.num i) }⟩),
    (s, ⟨.session, "track:" ++ ev, { value := v, prev := pr, num := some (.num i), id := some id }⟩) ]

/-- Tracks have pairwise-distinct ids (true of every constructed tree). -/
def nodupIds : List Track → Bool
  | [] => true
  | t :: ts => (!ts.any (fun u => u.id == t.id)) && nodupIds ts

/-- The whole-entity field addresses: those routed through the change-event
pattern (Session transport and master fields, Track mixer fields, Clip slot
fields).  Send and device-parameter sub-field addresses and the unregistered
track-name address are excluded. -/
def entityFieldAddr : Addr → Bool
  | .play | .record | .click | .masterSolo | .masterMute | .masterRecarm
  | .masterVolume | .masterPan | .masterSelected => true
  | .trackSolo _ | .trackRecarm _ | .trackMute _ | .trackPan _
  | .trackVolume _ | .trackVu _ | .trackSelected _ => true
  | .slotIndex _ _ | .slotIsSelected _ _ | .slotHasContent _ _
  | .slotIsPlaying _ _ | .slotIsRecording _ _ | .slotIsQueued _ _ => true
  | _ => false

theorem find?_map_upd {α : Type} (p : α → Bool) (f : α → α)
    (hp : ∀ x, p (f x) = p x) (l : List α) :
    (l.map (fun x => if p x then f x else x)).find? p = (l.find? p).map f := by
  induction l with
  | nil => rfl
  | cons x xs ih =>
    simp only [List.map_cons]
    by_cases h : p x = true
    · rw [if_pos h, List.find?_cons_of_pos _ ((hp x).trans h),
          List.find?_cons_of_pos _ h]
      rfl
    · rw [if_neg h, List.find?_cons_of_neg _ h, List.find?_cons_of_neg _ h, ih]

theorem map_map_upd {α β : Type} (p : α → Bool) (f : α → α) (g : α → β)
    (hg : ∀ x, g (f x) = g x) (l : List α) :
    (l.map (fun x => if p x then f x else x)).map g = l.map g := by
  induction l with
  | nil => rfl
  | cons x xs ih =>
    simp only [List.map_cons, ih]
    congr 1
    by_cases h : p x = true
    · rw [if_pos h, hg x]
    · rw [if_neg h]

theorem any_map_upd {α : Type} (p : α → Bool) (f : α → α) (q : α → Bool)
    (hq : ∀ x, q (f x) = q x) (l : List α) :
    (l.map (fun x => if p x then f x else x)).any q = l.any q := by
  induction l with
  | nil => rfl
  | cons x xs ih =>
    simp only [List.map_cons, List.any_cons, ih]
    congr 1
    by_cases h : p x = true
    · rw [if_pos h, hq x]
    · rw [if_neg h]

theorem get?_modifyAt {α : Type} (f : α → α) (i : Nat) (l : List α) :
    (modifyAt i f l).get? i = (l.get? i).map f := by
  induction l generalizing i with
  | nil => cases i <;> rfl
  | cons x xs ih =>
    cases i with
    | zero => rfl
    | succ j => simpa [modifyAt] using ih j

theorem findTrack_updTrack (s : Song) (id : Nat) (f : Track → Track)
    (hid : ∀ t, (f t).id = t.id) :
    (s.updTrack id f).findTrack id = (s.findTrack id).map f := by
  show (s.tracks.map (fun t => if t.id == id then f t else t)).find? (fun t => t.id == id) =
    (s.tracks.find? (fun t => t.id == id)).map f
  refine find?_map_upd _ f (fun t => ?_) _
  show ((f t).id == id) = (t.id == id)
  rw [hid t]

theorem findClip_updClip (t : Track) (cid : Nat) (f : Clip → Clip)
    (hid : ∀ c, (f c).id = c.id) :
    (t.updClip cid f).findClip cid = (t.findClip cid).map f := by
  show (t.clips.map (fun c => if c.id == cid then f c else c)).find? (fun c => c.id == cid) =
    (t.clips.find? (fun c => c.id == cid)).map f
  refine find?_map_upd _ f (fun c => ?_) _
  show ((f c).id == cid) = (c.id == cid)
  rw [hid c]

theorem trackField_updTrack (s : Song) (id : Nat) (f : Track → Track) (rf : Track → JSValue)
    (hid : ∀ t, (f t).id = t.id) :
    (s.updTrack id f).trackField id rf =
      (match s.findTrack id with
       | some t => rf (f t)
       | none => JSValue.undef) := by
  unfold Song.trackField
  rw [findTrack_updTrack s id f hid]
  cases s.findTrack id <;> rfl

theorem clipField_updClip (s : Song) (tid cid : Nat) (cwf : Clip → Clip) (rf : Clip → JSValue)
    (hid : ∀ c, (cwf c).id = c.id) :
    (s.updTrack tid (fun t => t.updClip cid cwf)).clipField tid cid rf =
      (match s.findTrack tid with
       | some t =>
         match t.findClip cid with
         | some c => rf (cwf c)
         | none => JSValue.undef
       | none => JSValue.undef) := by
  unfold Song.clipField
  rw [findTrack_updTrack s tid (fun t => t.updClip cid cwf) (fun t => rfl)]
  cases s.findTrack tid with
  | none => rfl
  | some t =>
    show (match (t.updClip cid cwf).findClip cid with
          | none => JSValue.undef
          | some c => rf c) =
         (match t.findClip cid with
          | some c => rf (cwf c)
          | none => JSValue.undef)
    rw [findClip_updClip t cid cwf hid]
    cases t.findClip cid <;> rfl

theorem findTrack_of_any (s : Song) (id : Nat)
    (h : s.tracks.any (fun t => t.id == id) = true) :
    ∃ t, s.findTrack id = some t := by
  obtain ⟨t, ht, hp⟩ := List.any_eq_true.mp h
  exact Option.isSome_iff_exists.mp (List.find?_isSome.mpr ⟨t, ht, hp⟩)

theorem any_of_findTrack (s : Song) (id : Nat) (t : Track)
    (h : s.findTrack id = some t) :
    s.tracks.any (fun x => x.id == id) = true := by
  have h' : s.tracks.find? (fun x => x.id == id) = some t := h
  have hp := List.find?_some h'
  have hp' : (t.id == id) = true := hp
  exact List.any_eq_true.mpr ⟨t, List.mem_of_find?_eq_some h', hp'⟩

theorem any_slot_of_find (s : Song) (tid cid : Nat) (t : Track) (c : Clip)
    (ht : s.findTrack tid = some t) (hc : t.findClip cid = some c) :
    s.tracks.any (fun x => x.id == tid && x.clips.any (fun y => y.id == cid)) = true := by
  have ht' : s.tracks.find? (fun x => x.id == tid) = some t := ht
  have hc' : t.clips.find? (fun y => y.id == cid) = some c := hc
  have hp := List.find?_some ht'
  have hp' : (t.id == tid) = true := hp
  have hq := List.find?_some hc'
  have hq' : (c.id == cid) = true := hq
  refine List.any_eq_true.mpr ⟨t, List.mem_of_find?_eq_some ht', ?_⟩
  rw [Bool.and_eq_true]
  exact ⟨hp', List.any_eq_true.mpr ⟨c, List.mem_of_find?_eq_some hc', hq'⟩⟩

theorem dispatch_not_subscribed (s : Song) (a : Addr) (v : JSValue)
    (h : subscribed s a = false) : dispatch s a v = (s, []) := by
  simp [dispatch, opsFor, h, runOps]

theorem dispatch_of_trackFieldOps (s : Song) (a : Addr) (id : Nat) (ev : String)
    (rf : Track → JSValue) (wf : Track → Track) (v : JSValue)
    (hops : opsFor s a v = trackFieldOps id ev rf wf v) :
    dispatch s a v = (s.updTrack id wf, trackEvts s id ev v (s.trackField id rf)) := by
  rw [dispatch, hops]
  rfl

theorem dispatch_of_clipFieldOps (s : Song) (a : Addr) (tid cid : Nat) (ev : String)
    (rf : Clip → JSValue) (wf : Clip → Clip) (v : JSValue)
    (hops : opsFor s a v = clipFieldOps tid cid ev rf wf v) :
    dispatch s a v = (s.updTrack tid (fun t => t.updClip cid wf),
      clipEvts s tid cid ev v (s.clipField tid cid rf)) := by
  rw [dispatch, hops]
  rfl

theorem dispatch_of_sendNameOps (s : Song) (a : Addr) (id i : Nat) (v : JSValue)
    (hops : opsFor s a v = sendNameOps id i v) :
    dispatch s a v =
      (s.updTrack id (fun t => { t with sends := modifyAt i (fun sl => { sl with name := v }) t.sends }),
       sendEvts s id "sendName" i v (s.trackField id (fun t => t.name))) := by
  rw [dispatch, hops]
  rfl

theorem dispatch_of_sendVolumeOps (s : Song) (a : Addr) (id i : Nat) (v : JSValue)
    (hops : opsFor s a v = sendVolumeOps id i v) :
    dispatch s a v =
      (s.updTrack id (fun t => { t with sends := modifyAt i (fun sl => { sl with volume := v }) t.sends }),
       sendEvts s id "sendVolume" i v (s.trackField id (fun t => t.volume))) := by
  rw [dispatch, hops]
  rfl

theorem dispatch_play_eq (s : Song) (v : JSValue) :
    dispatch s .play v =
      ({ s with playing := v }, [(s, ⟨.session, "play", { value := v, prev := s.playing }⟩)]) := rfl

theorem dispatch_record_eq (s : Song) (v : JSValue) :
    dispatch s .record v =
      ({ s with recording := v }, [(s, ⟨.session, "record", { value := v, prev := s.recording }⟩)]) := rfl

theorem dispatch_click_eq (s : Song) (v : JSValue) :
    dispatch s .click v =
      ({ s with click := v }, [(s, ⟨.session, "click", { value := v, prev := s.click }⟩)]) := rfl

theorem dispatch_masterSolo_eq (s : Song) (v : JSValue) :
    dispatch s .masterSolo v =
      ({ s with solo := v }, [(s, ⟨.session, "solo", { value := v, prev := s.solo }⟩)]) := rfl

theorem dispatch_masterMute_eq (s : Song) (v : JSValue) :
    dispatch s .masterMute v =
      ({ s with mute := v }, [(s, ⟨.session, "mute", { value := v, prev := s.mute }⟩)]) := rfl

theorem dispatch_masterRecarm_eq (s : Song) (v : JSValue) :
    dispatch s .masterRecarm v =
      ({ s with recarm := v }, [(s, ⟨.session, "recarm", { value := v, prev := s.recarm }⟩)]) := rfl

theorem dispatch_masterVolume_eq (s : Song) (v : JSValue) :
    dispatch s .masterVolume v =
      ({ s with volume := v }, [(s, ⟨.session, "volume", { value := v, prev := s.volume }⟩)]) := rfl

theorem dispatch_masterPan_eq (s : Song) (v : JSValue) :
    dispatch s .masterPan v =
      ({ s with pan := v }, [(s, ⟨.session, "pan", { value := v, prev := s.pan }⟩)]) := rfl

theorem dispatch_masterSelected_eq (s : Song) (v : JSValue) :
    dispatch s .masterSelected v =
      ({ s with selected := v }, [(s, ⟨.session, "selected", { value := v, prev := s.selected }⟩)]) := rfl

theorem dispatch_fxparamName_eq (s : Song) (i : Nat) (v : JSValue) (h : i < 8) :
    dispatch s (.fxparamName i) v =
      ({ s with fxparams := modifyAt i (fun p => { p with name := v }) s.fxparams }, []) := by
  simp [dispatch, opsFor, subscribed, h, fxparamNameOps, runOps]

theorem dispatch_fxparamValue_eq (s : Song) (i : Nat) (v : JSValue) (h : i < 8) :
    dispatch s (.fxparamValue i) v =
      ({ s with fxparams := modifyAt i (fun p => { p with value := v }) s.fxparams }, []) := by
  simp [dispatch, opsFor, subscribed, h, fxparamValueOps, runOps]

theorem dispatch_trackName_eq (s : Song) (id : Nat) (v : JSValue) :
    dispatch s (.trackName id) v = (s, []) :=
  dispatch_not_subscribed s _ v rfl

theorem nodupIds_unique {l : List Track} (h : nodupIds l = true) :
    ∀ {t u : Track}, t ∈ l → u ∈ l → t.id = u.id → t = u := by
  induction l with
  | nil =>
    intro t u ht
    exact absurd ht (List.not_mem_nil t)
  | cons x xs ih =>
    rw [nodupIds, Bool.and_eq_true, Bool.not_eq_true'] at h
    intro t u ht hu he
    rcases List.mem_cons.mp ht with rfl | ht'
    · rcases List.mem_cons.mp hu with rfl | hu'
      · rfl
      · exfalso
        have hx : xs.any (fun z => z.id == t.id) = true :=
          List.any_eq_true.mpr ⟨u, hu', by simp [he]⟩
        rw [h.1] at hx
        exact Bool.false_ne_true hx
    · rcases List.mem_cons.mp hu with rfl | hu'
      · exfalso
        have hx : xs.any (fun z => z.id == u.id) = true :=
          List.any_eq_true.mpr ⟨t, ht', by simp [he]⟩
        rw [h.1] at hx
        exact Bool.false_ne_true hx
      · exact ih h.2 ht' hu' he

theorem find_slot_of_any (s : Song) (tid cid : Nat)
    (hu : nodupIds s.tracks = true)
    (h : s.tracks.any (fun x => x.id == tid && x.clips.any (fun y => y.id == cid)) = true) :
    ∃ t c, s.findTrack tid = some t ∧ t.findClip cid = some c := by
  obtain ⟨u, hmu, hpu⟩ := List.any_eq_true.mp h
  rw [Bool.and_eq_true] at hpu
  obtain ⟨t, ht⟩ := findTrack_of_any s tid (List.any_eq_true.mpr ⟨u, hmu, hpu.1⟩)
  have ht' : s.tracks.find? (fun x => x.id == tid) = some t := ht
  have hmt : t ∈ s.tracks := List.mem_of_find?_eq_some ht'
  have hidt := List.find?_some ht'
  have hidt' : (t.id == tid) = true := hidt
  have hidu : (u.id == tid) = true := hpu.1
  have heq : u = t := nodupIds_unique hu hmu hmt (by
    have a1 : t.id = tid := by simpa using hidt'
    have a2 : u.id = tid := by simpa using hidu
    rw [a1, a2])
  cases heq
  obtain ⟨c0, hmc, hpc⟩ := List.any_eq_true.mp hpu.2
  have hfs : (u.clips.find? (fun y => y.id == cid)).isSome := by
    rw [List.find?_isSome]
    exact ⟨c0, hmc, hpc⟩
  obtain ⟨c, hc⟩ := Option.isSome_iff_exists.mp hfs
  exact ⟨u, c, ht, hc⟩

theorem trackField_updTrack_found (s : Song) (id : Nat) (t : Track)
    (f : Track → Track) (rf : Track → JSValue)
    (hid : ∀ x, (f x).id = x.id) (ht : s.findTrack id = some t) :
    (s.updTrack id f).trackField id rf = rf (f t) := by
  rw [trackField_updTrack s id f rf hid, ht]

theorem clipField_updClip_found (s : Song) (tid cid : Nat) (t : Track) (c : Clip)
    (cwf : Clip → Clip) (rf : Clip → JSValue)
    (hid : ∀ y, (cwf y).id = y.id)
    (ht : s.findTrack tid = some t) (hc : t.findClip cid = some c) :
    (s.updTrack tid (fun x => x.updClip cid cwf)).clipField tid cid rf = rf (cwf c) := by
  rw [clipField_updClip s tid cid cwf rf hid, ht]
  show (match t.findClip cid with
        | some y => rf (cwf y)
        | none => JSValue.undef) = rf (cwf c)
  rw [hc]

theorem dispatch_trackSolo_eq (s : Song) (id : Nat) (t : Track) (v : JSValue)
    (ht : s.findTrack id = some t) :
    dispatch s (.trackSolo id) v =
      (s.updTrack id (fun x => { x with solo := v }), trackEvts s id "solo" v t.solo) := by
  have h := any_of_findTrack s id t ht
  rw [dispatch_of_trackFieldOps s _ id "solo" (fun x => x.solo)
    (fun x => { x with solo := v }) v (by simp [opsFor, subscribed, h])]
  unfold Song.trackField
  rw [ht]

theorem dispatch_trackRecarm_eq (s : Song) (id : Nat) (t : Track) (v : JSValue)
    (ht : s.findTrack id = some t) :
    dispatch s (.trackRecarm id) v =
      (s.updTrack id (fun x => { x with recarm := v }), trackEvts s id "recarm" v t.recarm) := by
  have h := any_of_findTrack s id t ht
  rw [dispatch_of_trackFieldOps s _ id "recarm" (fun x => x.recarm)
    (fun x => { x with recarm := v }) v (by simp [opsFor, subscribed, h])]
  unfold Song.trackField
  rw [ht]

theorem dispatch_trackMute_eq (s : Song) (id : Nat) (t : Track) (v : JSValue)
    (ht : s.findTrack id = some t) :
    dispatch s (.trackMute id) v =
      (s.updTrack id (fun x => { x with mute := v }), trackEvts s id "mute" v t.mute) := by
  have h := any_of_findTrack s id t ht
  rw [dispatch_of_trackFieldOps s _ id "mute" (fun x => x.mute)
    (fun x => { x with mute := v }) v (by simp [opsFor, subscribed, h])]
  unfold Song.trackField
  rw [ht]

theorem dispatch_trackPan_eq (s : Song) (id : Nat) (t : Track) (v : JSValue)
    (ht : s.findTrack id = some t) :
    dispatch s (.trackPan id) v =
      (s.updTrack id (fun x => { x with pan := v }), trackEvts s id "pan" v t.pan) := by
  have h := any_of_findTrack s id t ht
  rw [dispatch_of_trackFieldOps s _ id "pan" (fun x => x.pan)
    (fun x => { x with pan := v }) v (by simp [opsFor, subscribed, h])]
  unfold Song.trackField
  rw [ht]

theorem dispatch_trackVolume_eq (s : Song) (id : Nat) (t : Track) (v : JSValue)
    (ht : s.findTrack id = some t) :
    dispatch s (.trackVolume id) v =
      (s.updTrack id (fun x => { x with volume := v }), trackEvts s id "volume" v t.volume) := by
  have h := any_of_findTrack s id t ht
  rw [dispatch_of_trackFieldOps s _ id "volume" (fun x => x.volume)
    (fun x => { x with volume := v }) v (by simp [opsFor, subscribed, h])]
  unfold Song.trackField
  rw [ht]

theorem dispatch_trackVu_eq (s : Song) (id : Nat) (t : Track) (v : JSValue)
    (ht : s.findTrack id = some t) :
    dispatch s (.trackVu id) v =
      (s.updTrack id (fun x => { x with vu := v }), trackEvts s id "vu" v t.vu) := by
  have h := any_of_findTrack s id t ht
  rw [dispatch_of_trackFieldOps s _ id "vu" (fun x => x.vu)
    (fun x => { x with vu := v }) v (by simp [opsFor, subscribed, h])]
  unfold Song.trackField
  rw [ht]

theorem dispatch_trackSelected_eq (s : Song) (id : Nat) (t : Track) (v : JSValue)
    (ht : s.findTrack id = some t) :
    dispatch s (.trackSelected id) v =
      (s.updTrack id (fun x => { x with selected := v }), trackEvts s id "selected" v t.selected) := by
  have h := any_of_findTrack s id t ht
  rw [dispatch_of_trackFieldOps s _ id "selected" (fun x => x.selected)
    (fun x => { x with selected := v }) v (by simp [opsFor, subscribed, h])]
  unfold Song.trackField
  rw [ht]

theorem dispatch_sendName_eq (s : Song) (id i : Nat) (t : Track) (v : JSValue)
    (ht : s.findTrack id = some t) (hi : i < 6) :
    dispatch s (.sendName id i) v =
      (s.updTrack id (fun x => { x with sends := modifyAt i (fun sl => { sl with name := v }) x.sends }),
       sendEvts s id "sendName" i v t.name) := by
  have h := any_of_findTrack s id t ht
  rw [dispatch_of_sendNameOps s _ id i v (by simp [opsFor, subscribed, h, hi])]
  unfold Song.trackField
  rw [ht]

theorem dispatch_sendVolume_eq (s : Song) (id i : Nat) (t : Track) (v : JSValue)
    (ht : s.findTrack id = some t) (hi : i < 6) :
    dispatch s (.sendVolume id i) v =
      (s.updTrack id (fun x => { x with sends := modifyAt i (fun sl => { sl with volume := v }) x.sends }),
       sendEvts s id "sendVolume" i v t.volume) := by
  have h := any_of_findTrack s id t ht
  rw [dispatch_of_sendVolumeOps s _ id i v (by simp [opsFor, subscribed, h, hi])]
  unfold Song.trackField
  rw [ht]

theorem dispatch_slotIndex_eq (s : Song) (tid cid : Nat) (t : Track) (c : Clip) (v : JSValue)
    (ht : s.findTrack tid = some t) (hc : t.findClip cid = some c) :
    dispatch s (.slotIndex tid cid) v =
      (s.updTrack tid (fun x => x.updClip cid (fun y => { y with index := v })),
       clipEvts s tid cid "index" v c.index) := by
  have h := any_slot_of_find s tid cid t c ht hc
  have hcf : s.clipField tid cid (fun y => y.index) = c.index := by
    unfold Song.clipField
    rw [ht]
    show (match t.findClip cid with
          | none => JSValue.undef
          | some y => y.index) = c.index
    rw [hc]
  rw [dispatch_of_clipFieldOps s _ tid cid "index" (fun y => y.index)
    (fun y => { y with index := v }) v (by simp [opsFor, subscribed, h]), hcf]

theorem dispatch_slotIsSelected_eq (s : Song) (tid cid : Nat) (t : Track) (c : Clip) (v : JSValue)
    (ht : s.findTrack tid = some t) (hc : t.findClip cid = some c) :
    dispatch s (.slotIsSelected tid cid) v =
      (s.updTrack tid (fun x => x.updClip cid (fun y => { y with isSelected := v })),
       clipEvts s tid cid "isSelected" v c.isSelected) := by
  have h := any_slot_of_find s tid cid t c ht hc
  have hcf : s.clipField tid cid (fun y => y.isSelected) = c.isSelected := by
    unfold Song.clipField
    rw [ht]
    show (match t.findClip cid with
          | none => JSValue.undef
          | some y => y.isSelected) = c.isSelected
    rw [hc]
  rw [dispatch_of_clipFieldOps s _ tid cid "isSelected" (fun y => y.isSelected)
    (fun y => { y with isSelected := v }) v (by simp [opsFor, subscribed, h]), hcf]

theorem dispatch_slotHasContent_eq (s : Song) (tid cid : Nat) (t : Track) (c : Clip) (v : JSValue)
    (ht : s.findTrack tid = some t) (hc : t.findClip cid = some c) :
    dispatch s (.slotHasContent tid cid) v =
      (s.updTrack tid (fun x => x.updClip cid (fun y => { y with hasContent := v })),
       clipEvts s tid cid "hasContent" v c.hasContent) := by
  have h := any_slot_of_find s tid cid t c ht hc
  have hcf : s.clipField tid cid (fun y => y.hasContent) = c.hasContent := by
    unfold Song.clipField
    rw [ht]
    show (match t.findClip cid with
          | none => JSValue.undef
          | some y => y.hasContent) = c.hasContent
    rw [hc]
  rw [dispatch_of_clipFieldOps s _ tid cid "hasContent" (fun y => y.hasContent)
    (fun y => { y with hasContent := v }) v (by simp [opsFor, subscribed, h]), hcf]

theorem dispatch_slotIsPlaying_eq (s : Song) (tid cid : Nat) (t : Track) (c : Clip) (v : JSValue)
    (ht : s.findTrack tid = some t) (hc : t.findClip cid = some c) :
    dispatch s (.slotIsPlaying tid cid) v =
      (s.updTrack tid (fun x => x.updClip cid (fun y => { y with isPlaying := v })),
       clipEvts s tid cid "isPlaying" v c.isPlaying) := by
  have h := any_slot_of_find s tid cid t c ht hc
  have hcf : s.clipField tid cid (fun y => y.isPlaying) = c.isPlaying := by
    unfold Song.clipField
    rw [ht]
    show (match t.findClip cid with
          | none => JSValue.undef
          | some y => y.isPlaying) = c.isPlaying
    rw [hc]
  rw [dispatch_of_clipFieldOps s _ tid cid "isPlaying" (fun y => y.isPlaying)
    (fun y => { y with isPlaying := v }) v (by simp [opsFor, subscribed, h]), hcf]

theorem dispatch_slotIsRecording_eq (s : Song) (tid cid : Nat) (t : Track) (c : Clip) (v : JSValue)
    (ht : s.findTrack tid = some t) (hc : t.findClip cid = some c) :
    dispatch s (.slotIsRecording tid cid) v =
      (s.updTrack tid (fun x => x.updClip cid (fun y => { y with isRecording := v })),
       clipEvts s tid cid "isRecording" v c.isRecording) := by
  have h := any_slot_of_find s tid cid t c ht hc
  have hcf : s.clipField tid cid (fun y => y.isRecording) = c.isRecording := by
    unfold Song.clipField
    rw [ht]
    show (match t.findClip cid with
          | none => JSValue.undef
          | some y => y.isRecording) = c.isRecording
    rw [hc]
  rw [dispatch_of_clipFieldOps s _ tid cid "isRecording" (fun y => y.isRecording)
    (fun y => { y with isRecording := v }) v (by simp [opsFor, subscribed, h]), hcf]

theorem dispatch_slotIsQueued_eq (s : Song) (tid cid : Nat) (t : Track) (c : Clip) (v : JSValue)
    (ht : s.findTrack tid = some t) (hc : t.findClip cid = some c) :
    dispatch s (.slotIsQueued tid cid) v =
      (s.updTrack tid (fun x => x.updClip cid (fun y => { y with isQueued := v })),
       clipEvts s tid cid "isQueued" v c.isQueued) := by
  have h := any_slot_of_find s tid cid t c ht hc
  have hcf : s.clipField tid cid (fun y => y.isQueued) = c.isQueued := by
    unfold Song.clipField
    rw [ht]
    show (match t.findClip cid with
          | none => JSValue.undef
          | some y => y.isQueued) = c.isQueued
    rw [hc]
  rw [dispatch_of_clipFieldOps s _ tid cid "isQueued" (fun y => y.isQueued)
    (fun y => { y with isQueued := v }) v (by simp [opsFor, subscribed, h]), hcf]

theorem updClip_ids (t : Track) (cid : Nat) (f : Clip → Clip)
    (hid : ∀ y, (f y).id = y.id) :
    (t.updClip cid f).clips.map (fun y => y.id) = t.clips.map (fun y => y.id) := by
  show (t.clips.map (fun y => if y.id == cid then f y else y)).map (fun y => y.id) =
    t.clips.map (fun y => y.id)
  exact map_map_upd _ f _ (fun y => hid y) _

theorem dispatch_tracks_ids (s : Song) (a : Addr) (v : JSValue) :
    (dispatch s a v).1.tracks.map (fun x => x.id) = s.tracks.map (fun x => x.id) ∧
    (dispatch s a v).1.tracks.map (fun x => x.clips.map (fun y => y.id)) =
      s.tracks.map (fun x => x.clips.map (fun y => y.id)) := by
  have hupd : ∀ (id : Nat) (wf : Track → Track),
      (∀ x, (wf x).id = x.id) →
      (∀ x, (wf x).clips.map (fun y => y.id) = x.clips.map (fun y => y.id)) →
      ((s.updTrack id wf).tracks.map (fun x => x.id) = s.tracks.map (fun x => x.id) ∧
       (s.updTrack id wf).tracks.map (fun x => x.clips.map (fun y => y.id)) =
         s.tracks.map (fun x => x.clips.map (fun y => y.id))) := by
    intro id wf h1 h2
    exact ⟨map_map_upd _ _ _ h1 _, map_map_upd _ _ _ h2 _⟩
  cases a with
  | play => exact ⟨rfl, rfl⟩
  | record => exact ⟨rfl, rfl⟩
  | click => exact ⟨rfl, rfl⟩
  | masterSolo => exact ⟨rfl, rfl⟩
  | masterMute => exact ⟨rfl, rfl⟩
  | masterRecarm => exact ⟨rfl, rfl⟩
  | masterVolume => exact ⟨rfl, rfl⟩
  | masterPan => exact ⟨rfl, rfl⟩
  | masterSelected => exact ⟨rfl, rfl⟩
  | fxparamName i =>
    by_cases h : i < 8
    · rw [dispatch_fxparamName_eq s i v h]
      exact ⟨rfl, rfl⟩
    · rw [dispatch_not_subscribed s _ v (by simp [subscribed, h])]
      exact ⟨rfl, rfl⟩
  | fxparamValue i =>
    by_cases h : i < 8
    · rw [dispatch_fxparamValue_eq s i v h]
      exact ⟨rfl, rfl⟩
    · rw [dispatch_not_subscribed s _ v (by simp [subscribed, h])]
      exact ⟨rfl, rfl⟩
  | trackName id =>
    rw [dispatch_trackName_eq]
    exact ⟨rfl, rfl⟩
  | trackSolo id =>
    cases hs : subscribed s (Addr.trackSolo id) with
    | false =>
      rw [dispatch_not_subscribed s _ v hs]
      exact ⟨rfl, rfl⟩
    | true =>
      rw [dispatch_of_trackFieldOps s _ id "solo" (fun x => x.solo)
        (fun x => { x with solo := v }) v (by simp [opsFor, hs])]
      exact hupd id _ (fun x => rfl) (fun x => rfl)
  | trackRecarm id =>
    cases hs : subscribed s (Addr.trackRecarm id) with
    | false =>
      rw [dispatch_not_subscribed s _ v hs]
      exact ⟨rfl, rfl⟩
    | true =>
      rw [dispatch_of_trackFieldOps s _ id "recarm" (fun x => x.recarm)
        (fun x => { x with recarm := v }) v (by simp [opsFor, hs])]
      exact hupd id _ (fun x => rfl) (fun x => rfl)
  | trackMute id =>
    cases hs : subscribed s (Addr.trackMute id) with
    | false =>
      rw [dispatch_not_subscribed s _ v hs]
      exact ⟨rfl, rfl⟩
    | true =>
      rw [dispatch_of_trackFieldOps s _ id "mute" (fun x => x.mute)
        (fun x => { x with mute := v }) v (by simp [opsFor, hs])]
      exact hupd id _ (fun x => rfl) (fun x => rfl)
  | trackPan id =>
    cases hs : subscribed s (Addr.trackPan id) with
    | false =>
      rw [dispatch_not_subscribed s _ v hs]
      exact ⟨rfl, rfl⟩
    | true =>
      rw [dispatch_of_trackFieldOps s _ id "pan" (fun x => x.pan)
        (fun x => { x with pan := v }) v (by simp [opsFor, hs])]
      exact hupd id _ (fun x => rfl) (fun x => rfl)
  | trackVolume id =>
    cases hs : subscribed s (Addr.trackVolume id) with
    | false =>
      rw [dispatch_not_subscribed s _ v hs]
      exact ⟨rfl, rfl⟩
    | true =>
      rw [dispatch_of_trackFieldOps s _ id "volume" (fun x => x.volume)
        (fun x => { x with volume := v }) v (by simp [opsFor, hs])]
      exact hupd id _ (fun x => rfl) (fun x => rfl)
  | trackVu id =>
    cases hs : subscribed s (Addr.trackVu id) with
    | false =>
      rw [dispatch_not_subscribed s _ v hs]
      exact ⟨rfl, rfl⟩
    | true =>
      rw [dispatch_of_trackFieldOps s _ id "vu" (fun x => x.vu)
        (fun x => { x with vu := v }) v (by simp [opsFor, hs])]
      exact hupd id _ (fun x => rfl) (fun x => rfl)
  | trackSelected id =>
    cases hs : subscribed s (Addr.trackSelected id) with
    | false =>
      rw [dispatch_not_subscribed s _ v hs]
      exact ⟨rfl, rfl⟩
    | true =>
      rw [dispatch_of_trackFieldOps s _ id "selected" (fun x => x.selected)
        (fun x => { x with selected := v }) v (by simp [opsFor, hs])]
      exact hupd id _ (fun x => rfl) (fun x => rfl)
  | sendName id i =>
    cases hs : subscribed s (Addr.sendName id i) with
    | false =>
      rw [dispatch_not_subscribed s _ v hs]
      exact ⟨rfl, rfl⟩
    | true =>
      rw [dispatch_of_sendNameOps s _ id i v (by simp [opsFor, hs])]
      exact hupd id _ (fun x => rfl) (fun x => rfl)
  | sendVolume id i =>
    cases hs : subscribed s (Addr.sendVolume id i) with
    | false =>
      rw [dispatch_not_subscribed s _ v hs]
      exact ⟨rfl, rfl⟩
    | true =>
      rw [dispatch_of_sendVolumeOps s _ id i v (by simp [opsFor, hs])]
      exact hupd id _ (fun x => rfl) (fun x => rfl)
  | slotIndex tid cid =>
    cases hs : subscribed s (Addr.slotIndex tid cid) with
    | false =>
      rw [dispatch_not_subscribed s _ v hs]
      exact ⟨rfl, rfl⟩
    | true =>
      rw [dispatch_of_clipFieldOps s _ tid cid "index" (fun y => y.index)
        (fun y => { y with index := v }) v (by simp [opsFor, hs])]
      exact hupd tid _ (fun x => rfl) (fun x => updClip_ids x cid _ (fun y => rfl))
  | slotIsSelected tid cid =>
    cases hs : subscribed s (Addr.slotIsSelected tid cid) with
    | false =>
      rw [dispatch_not_subscribed s _ v hs]
      exact ⟨rfl, rfl⟩
    | true =>
      rw [dispatch_of_clipFieldOps s _ tid cid "isSelected" (fun y => y.isSelected)
        (fun y => { y with isSelected := v }) v (by simp [opsFor, hs])]
      exact hupd tid _ (fun x => rfl) (fun x => updClip_ids x cid _ (fun y => rfl))
  | slotHasContent tid cid =>
    cases hs : subscribed s (Addr.slotHasContent tid cid) with
    | false =>
      rw [dispatch_not_subscribed s _ v hs]
      exact ⟨rfl, rfl⟩
    | true =>
      rw [dispatch_of_clipFieldOps s _ tid cid "hasContent" (fun y => y.hasContent)
        (fun y => { y with hasContent := v }) v (by simp [opsFor, hs])]
      exact hupd tid _ (fun x => rfl) (fun x => updClip_ids x cid _ (fun y => rfl))
  | slotIsPlaying tid cid =>
    cases hs : subscribed s (Addr.slotIsPlaying tid cid) with
    | false =>
      rw [dispatch_not_subscribed s _ v hs]
      exact ⟨rfl, rfl⟩
    | true =>
      rw [dispatch_of_clipFieldOps s _ tid cid "isPlaying" (fun y => y.isPlaying)
        (fun y => { y with isPlaying := v }) v (by simp [opsFor, hs])]
      exact hupd tid _ (fun x => rfl) (fun x => updClip_ids x cid _ (fun y => rfl))
  | slotIsRecording tid cid =>
    cases hs : subscribed s (Addr.slotIsRecording tid cid) with
    | false =>
      rw [dispatch_not_subscribed s _ v hs]
      exact ⟨rfl, rfl⟩
    | true =>
      rw [dispatch_of_clipFieldOps s _ tid cid "isRecording" (fun y => y.isRecording)
        (fun y => { y with isRecording := v }) v (by simp [opsFor, hs])]
      exact hupd tid _ (fun x => rfl) (fun x => updClip_ids x cid _ (fun y => rfl))
  | slotIsQueued tid cid =>
    cases hs : subscribed s (Addr.slotIsQueued tid cid) with
    | false =>
      rw [dispatch_not_subscribed s _ v hs]
      exact ⟨rfl, rfl⟩
    | true =>
      rw [dispatch_of_clipFieldOps s _ tid cid "isQueued" (fun y => y.isQueued)
        (fun y => { y with isQueued := v }) v (by simp [opsFor, hs])]
      exact hupd tid _ (fun x => rfl) (fun x => updClip_ids x cid _ (fun y => rfl))

/-- C4: calling the volume-set command with value 64 on the track with id 3
produces exactly one outbound message to /track/3/volume with a single
integer-typed argument 64, and calling clip launch on the clip with internal
0-indexed id 0 of the track with id 2 produces exactly one outbound message
to /track/2/clip/1/launch (id shifted by 1 on the wire) with no arguments. -/
theorem c4_outbound_command_serialization :
    (Track.init 3).setVolume (JSValue.num 64) =
      (Track.init 3,
       [{ address := "/track/3/volume", args := [.typed "integer" (.num 64)] }]) ∧
    (Clip.init 2 0).launch =
      (Clip.init 2 0, [{ address := "/track/2/clip/1/launch", args := [] }]) :=
  ⟨by decide, by decide⟩

/-- C7: every outbound command method leaves every mirrored state field of
every entity unchanged — the returned receiver equals the input — and its
only effect is handing exactly one message to the transport adapter. -/
theorem c7_commands_no_local_update (s : Song) (t : Track) (c : Clip) (v : JSValue) (n : Nat) :
    (s.stop.1 = s ∧ s.stop.2.length = 1) ∧
    (s.play.1 = s ∧ s.play.2.length = 1) ∧
    (s.record.1 = s ∧ s.record.2.length = 1) ∧
    ((s.loop v).1 = s ∧ (s.loop v).2.length = 1) ∧
    ((s.setClick v).1 = s ∧ (s.setClick v).2.length = 1) ∧
    ((s.launchScene n).1 = s ∧ (s.launchScene n).2.length = 1) ∧
    ((s.setVolume v).1 = s ∧ (s.setVolume v).2.length = 1) ∧
    ((s.setPan v).1 = s ∧ (s.setPan v).2.length = 1) ∧
    ((s.setTempo v).1 = s ∧ (s.setTempo v).2.length = 1) ∧
    ((s.setTime v).1 = s ∧ (s.setTime v).2.length = 1) ∧
    (s.toggleFxBypass.1 = s ∧ s.toggleFxBypass.2.length = 1) ∧
    (s.select.1 = s ∧ s.select.2.length = 1) ∧
    ((t.setName v).1 = t ∧ (t.setName v).2.length = 1) ∧
    ((t.setRecarm v).1 = t ∧ (t.setRecarm v).2.length = 1) ∧
    ((t.setSolo v).1 = t ∧ (t.setSolo v).2.length = 1) ∧
    ((t.setMute v).1 = t ∧ (t.setMute v).2.length = 1) ∧
    ((t.setVolume v).1 = t ∧ (t.setVolume v).2.length = 1) ∧
    ((t.setPan v).1 = t ∧ (t.setPan v).2.length = 1) ∧
    ((t.setSendName n v).1 = t ∧ (t.setSendName n v).2.length = 1) ∧
    (t.view.1 = t ∧ t.view.2.length = 1) ∧
    (c.launch.1 = c ∧ c.launch.2.length = 1) := by
  cases hv : v.truthy <;>
    simp [Song.stop, Song.play, Song.record, Song.loop, Song.setClick, Song.launchScene,
      Song.setVolume, Song.setPan, Song.setTempo, Song.setTime, Song.toggleFxBypass,
      Song.select, Track.setName, Track.setRecarm, Track.setSolo, Track.setMute,
      Track.setVolume, Track.setPan, Track.setSendName, Track.view, Clip.launch, hv]

/-- C2 (code bug): on a track as constructed (the Track constructor installs
eight clips), setting numScenes and invoking the clip refresh does NOT
detach, rebuild or request anything: refreshClips calls clip.destroy() on
the first existing clip, Clip.prototype defines no destroy method, and the
call throws a TypeError, aborting with the track unchanged and no outbound
messages sent. -/
theorem c2_refreshClips_throws :
    ((Track.init 2).setNumScenes 3).refreshClips =
      Except.error "TypeError: clip.destroy is not a function" := by
  rfl

/-- C8: the id assigned at construction is never modified afterwards:
inbound dispatch on any address preserves every track id and every clip id
in the tree, setNumScenes preserves the invoking track's id, and
refreshClips leaves the invoking track's id unchanged on both its error
path (the reachable one) and its success path; outbound command methods
return their receiver unchanged (see the frame theorem), so they cannot
modify ids either. -/
theorem c8_ids_immutable (s : Song) (a : Addr) (v : JSValue) (t : Track) (n : Nat) :
    (dispatch s a v).1.tracks.map (fun x => x.id) = s.tracks.map (fun x => x.id) ∧
    (dispatch s a v).1.tracks.map (fun x => x.clips.map (fun y => y.id)) =
      s.tracks.map (fun x => x.clips.map (fun y => y.id)) ∧
    (t.setNumScenes n).id = t.id ∧
    (match t.refreshClips with
     | .ok r => r.1.id
     | .error _ => t.id) = t.id := by
  refine ⟨(dispatch_tracks_ids s a v).1, (dispatch_tracks_ids s a v).2, rfl, ?_⟩
  unfold Track.refreshClips
  cases t.clips <;> rfl

/-- C3 (counterexample): delivering one inbound send-name message from the
constructed session DOES emit change events — two of them, the track-local
sendName event and the session-level track:sendName event — contradicting
the claim that send sub-field updates emit no change event. -/
theorem c3_counterexample_send_emits_events :
    (dispatch Song.init (Addr.sendName 1 0) (JSValue.str "A")).2.map
      (fun pe => (pe.2.registry, pe.2.name)) =
      [(Registry.trackLocal 1, "sendName"), (Registry.session, "track:sendName")] := by
  decide

/-- C3 (amended): device-parameter slots are updated directly by inbound
fxparam messages with no change event; track send sub-field messages update
the addressed send slot but DO emit a sendName/sendVolume event pair
(track-local, then session-level under a track-namespaced key), with prev
drawn from the track's own top-level name/volume field. -/
theorem c3_amended_subfield_updates (s : Song) (i j id : Nat) (t : Track) (v : JSValue)
    (hi : i < 8) (hj : j < 6) (ht : s.findTrack id = some t) :
    dispatch s (.fxparamName i) v =
      ({ s with fxparams := modifyAt i (fun p => { p with name := v }) s.fxparams }, []) ∧
    dispatch s (.fxparamValue i) v =
      ({ s with fxparams := modifyAt i (fun p => { p with value := v }) s.fxparams }, []) ∧
    dispatch s (.sendName id j) v =
      (s.updTrack id
        (fun x => { x with sends := modifyAt j (fun sl => { sl with name := v }) x.sends }),
       sendEvts s id "sendName" j v t.name) ∧
    dispatch s (.sendVolume id j) v =
      (s.updTrack id
        (fun x => { x with sends := modifyAt j (fun sl => { sl with volume := v }) x.sends }),
       sendEvts s id "sendVolume" j v t.volume) :=
  ⟨dispatch_fxparamName_eq s i v hi, dispatch_fxparamValue_eq s i v hi,
   dispatch_sendName_eq s id j t v ht hj, dispatch_sendVolume_eq s id j t v ht hj⟩

theorem c3_amended_subfield_updates_witness :
    (0 : Nat) < 8 ∧ (0 : Nat) < 6 ∧ Song.init.findTrack 1 = some (Track.init 1) ∧
    dispatch Song.init (Addr.sendName 1 0) (JSValue.str "A") =
      (Song.init.updTrack 1
        (fun x => { x with sends := modifyAt 0 (fun sl => { sl with name := JSValue.str "A" }) x.sends }),
       sendEvts Song.init 1 "sendName" 0 (JSValue.str "A") JSValue.undef) := by
  refine ⟨by decide, by decide, by decide, ?_⟩
  exact (c3_amended_subfield_updates Song.init 0 0 1 (Track.init 1) (JSValue.str "A")
    (by decide) (by decide) (by decide)).2.2.1

/-- C9: the send sub-field events carry a prev read from the track's own
top-level field, not from the send slot: every sendName event (local and
session-level) carries prev = the track's name field, and every sendVolume
event carries prev = the track's volume field, as they stood at emission. -/
theorem c9_send_prev_from_track_field (s : Song) (id i : Nat) (t : Track) (v : JSValue)
    (ht : s.findTrack id = some t) (hi : i < 6) :
    (dispatch s (.sendName id i) v).2.map (fun pe => pe.2.params.prev) = [t.name, t.name] ∧
    (dispatch s (.sendVolume id i) v).2.map (fun pe => pe.2.params.prev) = [t.volume, t.volume] := by
  rw [dispatch_sendName_eq s id i t v ht hi, dispatch_sendVolume_eq s id i t v ht hi]
  exact ⟨rfl, rfl⟩

theorem c9_send_prev_from_track_field_witness :
    Song.init.findTrack 1 = some (Track.init 1) ∧ (0 : Nat) < 6 ∧
    (dispatch Song.init (Addr.sendName 1 0) (JSValue.num 5)).2.map
      (fun pe => pe.2.params.prev) = [JSValue.undef, JSValue.undef] ∧
    (Track.init 1).sends.get? 0 = some { name := JSValue.str "", volume := JSValue.num 0 } := by
  refine ⟨by decide, by decide, ?_, by decide⟩
  exact (c9_send_prev_from_track_field Song.init 1 0 (Track.init 1) (JSValue.num 5)
    (by decide) (by decide)).1

theorem init_track_uninit (t : Track) (hm : t ∈ Song.init.tracks) :
    t.name = JSValue.undef ∧ t.vu = JSValue.undef := by
  have h : ∀ x ∈ Song.init.tracks, x.name = JSValue.undef ∧ x.vu = JSValue.undef := by decide
  exact h t hm

/-- C10 (counterexample): the first inbound message on a track-name address
emits NO event at all — nameListener is defined in the Track constructor but
never registered with the receiver — refuting the claim that the first
message on each of those uninitialized-field addresses emits an event whose
prev is undefined. -/
theorem c10_counterexample_trackName_no_event :
    dispatch Song.init (Addr.trackName 1) (JSValue.str "x") = (Song.init, []) :=
  dispatch_trackName_eq Song.init 1 (JSValue.str "x")

/-- C10 (amended): the master-bus solo/mute/recarm/selected fields and every
track's name and vu fields are uninitialized (undefined) at construction;
the first inbound message on each master address emits one event with
undefined prev and on the vu address emits two events with undefined prev;
for track name, however, no inbound subscription exists (the listener is
never registered), so a message on that address emits nothing and changes
nothing. -/
theorem c10_amended_uninitialized_fields (v : JSValue) (id : Nat) (t : Track)
    (ht : Song.init.findTrack id = some t) :
    Song.init.solo = JSValue.undef ∧ Song.init.mute = JSValue.undef ∧
    Song.init.recarm = JSValue.undef ∧ Song.init.selected = JSValue.undef ∧
    t.name = JSValue.undef ∧ t.vu = JSValue.undef ∧
    (dispatch Song.init .masterSolo v).2.map (fun pe => pe.2.params.prev) = [JSValue.undef] ∧
    (dispatch Song.init .masterMute v).2.map (fun pe => pe.2.params.prev) = [JSValue.undef] ∧
    (dispatch Song.init .masterRecarm v).2.map (fun pe => pe.2.params.prev) = [JSValue.undef] ∧
    (dispatch Song.init .masterSelected v).2.map (fun pe => pe.2.params.prev) = [JSValue.undef] ∧
    (dispatch Song.init (Addr.trackVu id) v).2.map (fun pe => pe.2.params.prev) =
      [JSValue.undef, JSValue.undef] ∧
    dispatch Song.init (Addr.trackName id) v = (Song.init, []) := by
  have ht' : Song.init.tracks.find? (fun x => x.id == id) = some t := ht
  obtain ⟨hn, hv⟩ := init_track_uninit t (List.mem_of_find?_eq_some ht')
  refine ⟨rfl, rfl, rfl, rfl, hn, hv, rfl, rfl, rfl, rfl, ?_,
    dispatch_trackName_eq Song.init id v⟩
  rw [dispatch_trackVu_eq Song.init id t v ht, hv]
  rfl

theorem c10_amended_uninitialized_fields_witness :
    Song.init.findTrack 1 = some (Track.init 1) ∧
    (dispatch Song.init (Addr.trackVu 1) (JSValue.num 3)).2.map
      (fun pe => pe.2.params.prev) = [JSValue.undef, JSValue.undef] := by
  refine ⟨by decide, ?_⟩
  exact (c10_amended_uninitialized_fields (JSValue.num 3) 1 (Track.init 1)
    (by decide)).2.2.2.2.2.2.2.2.2.2.1

/-- C1 (counterexample): dispatching /play with payload 1 from the initial
state emits its change event while the playing field still holds the OLD
value 0: the event's emission state carries playing = 0 while the event's
value is 1, so an observer re-reading the field during event dispatch does
NOT see the new value. -/
theorem c1_counterexample_field_old_at_emission :
    (dispatch Song.init Addr.play (JSValue.num 1)).2.map
      (fun pe => (pe.1.playing, pe.2.params.value)) = [(JSValue.num 0, JSValue.num 1)] ∧
    JSValue.num 0 ≠ JSValue.num 1 :=
  ⟨by decide, by decide⟩

/-- C1 (amended): every inbound handler emits its change event(s) BEFORE
assigning the field: each emitted event's emission state is the unmodified
pre-dispatch state, so an observer re-reading the field during event
dispatch sees the old value; the event's value is the delivered payload,
and the tracked field holds that payload only once the handler completes. -/
theorem c1_amended_emit_precedes_assignment (s : Song) (a : Addr) (v : JSValue)
    (hu : nodupIds s.tracks = true)
    (h6 : s.tracks.all (fun x => x.sends.length == 6) = true) :
    (∀ pe ∈ (dispatch s a v).2, pe.1 = s ∧ pe.2.params.value = v) ∧
    ((dispatch s a v).2 ≠ [] → readField (dispatch s a v).1 a = v) := by
  cases a with
  | play =>
    rw [dispatch_play_eq]
    refine ⟨?_, fun _ => rfl⟩
    intro pe hpe
    rw [List.mem_singleton] at hpe
    subst hpe
    exact ⟨rfl, rfl⟩
  | record =>
    rw [dispatch_record_eq]
    refine ⟨?_, fun _ => rfl⟩
    intro pe hpe
    rw [List.mem_singleton] at hpe
    subst hpe
    exact ⟨rfl, rfl⟩
  | click =>
    rw [dispatch_click_eq]
    refine ⟨?_, fun _ => rfl⟩
    intro pe hpe
    rw [List.mem_singleton] at hpe
    subst hpe
    exact ⟨rfl, rfl⟩
  | masterSolo =>
    rw [dispatch_masterSolo_eq]
    refine ⟨?_, fun _ => rfl⟩
    intro pe hpe
    rw [List.mem_singleton] at hpe
    subst hpe
    exact ⟨rfl, rfl⟩
  | masterMute =>
    rw [dispatch_masterMute_eq]
    refine ⟨?_, fun _ => rfl⟩
    intro pe hpe
    rw [List.mem_singleton] at hpe
    subst hpe
    exact ⟨rfl, rfl⟩
  | masterRecarm =>
    rw [dispatch_masterRecarm_eq]
    refine ⟨?_, fun _ => rfl⟩
    intro pe hpe
    rw [List.mem_singleton] at hpe
    subst hpe
    exact ⟨rfl, rfl⟩
  | masterVolume =>
    rw [dispatch_masterVolume_eq]
    refine ⟨?_, fun _ => rfl⟩
    intro pe hpe
    rw [List.mem_singleton] at hpe
    subst hpe
    exact ⟨rfl, rfl⟩
  | masterPan =>
    rw [dispatch_masterPan_eq]
    refine ⟨?_, fun _ => rfl⟩
    intro pe hpe
    rw [List.mem_singleton] at hpe
    subst hpe
    exact ⟨rfl, rfl⟩
  | masterSelected =>
    rw [dispatch_masterSelected_eq]
    refine ⟨?_, fun _ => rfl⟩
    intro pe hpe
    rw [List.mem_singleton] at hpe
    subst hpe
    exact ⟨rfl, rfl⟩
  | fxparamName i =>
    by_cases h : i < 8
    · rw [dispatch_fxparamName_eq s i v h]
      exact ⟨fun pe hpe => absurd hpe (List.not_mem_nil pe), fun hne => absurd rfl hne⟩
    · rw [dispatch_not_subscribed s _ v (by simp [subscribed, h])]
      exact ⟨fun pe hpe => absurd hpe (List.not_mem_nil pe), fun hne => absurd rfl hne⟩
  | fxparamValue i =>
    by_cases h : i < 8
    · rw [dispatch_fxparamValue_eq s i v h]
      exact ⟨fun pe hpe => absurd hpe (List.not_mem_nil pe), fun hne => absurd rfl hne⟩
    · rw [dispatch_not_subscribed s _ v (by simp [subscribed, h])]
      exact ⟨fun pe hpe => absurd hpe (List.not_mem_nil pe), fun hne => absurd rfl hne⟩
  | trackName id =>
    rw [dispatch_trackName_eq]
    exact ⟨fun pe hpe => absurd hpe (List.not_mem_nil pe), fun hne => absurd rfl hne⟩
  | trackSolo id =>
    cases hs : subscribed s (Addr.trackSolo id) with
    | false =>
      rw [dispatch_not_subscribed s _ v hs]
      exact ⟨fun pe hpe => absurd hpe (List.not_mem_nil pe), fun hne => absurd rfl hne⟩
    | true =>
      have hsub : s.tracks.any (fun x => x.id == id) = true := by simpa [subscribed] using hs
      obtain ⟨t, ht⟩ := findTrack_of_any s id hsub
      rw [dispatch_trackSolo_eq s id t v ht]
      refine ⟨?_, fun _ => ?_⟩
      · intro pe hpe
        simp only [trackEvts, List.mem_cons, List.not_mem_nil, or_false] at hpe
        rcases hpe with rfl | rfl <;> exact ⟨rfl, rfl⟩
      · show (s.updTrack id (fun x => { x with solo := v })).trackField id (fun x => x.solo) = v
        exact trackField_updTrack_found s id t _ _ (fun x => rfl) ht
  | trackRecarm id =>
    cases hs : subscribed s (Addr.trackRecarm id) with
    | false =>
      rw [dispatch_not_subscribed s _ v hs]
      exact ⟨fun pe hpe => absurd hpe (List.not_mem_nil pe), fun hne => absurd rfl hne⟩
    | true =>
      have hsub : s.tracks.any (fun x => x.id == id) = true := by simpa [subscribed] using hs
      obtain ⟨t, ht⟩ := findTrack_of_any s id hsub
      rw [dispatch_trackRecarm_eq s id t v ht]
      refine ⟨?_, fun _ => ?_⟩
      · intro pe hpe
        simp only [trackEvts, List.mem_cons, List.not_mem_nil, or_false] at hpe
        rcases hpe with rfl | rfl <;> exact ⟨rfl, rfl⟩
      · show (s.updTrack id (fun x => { x with recarm := v })).trackField id (fun x => x.recarm) = v
        exact trackField_updTrack_found s id t _ _ (fun x => rfl) ht
  | trackMute id =>
    cases hs : subscribed s (Addr.trackMute id) with
    | false =>
      rw [dispatch_not_subscribed s _ v hs]
      exact ⟨fun pe hpe => absurd hpe (List.not_mem_nil pe), fun hne => absurd rfl hne⟩
    | true =>
      have hsub : s.tracks.any (fun x => x.id == id) = true := by simpa [subscribed] using hs
      obtain ⟨t, ht⟩ := findTrack_of_any s id hsub
      rw [dispatch_trackMute_eq s id t v ht]
      refine ⟨?_, fun _ => ?_⟩
      · intro pe hpe
        simp only [trackEvts, List.mem_cons, List.not_mem_nil, or_false] at hpe
        rcases hpe with rfl | rfl <;> exact ⟨rfl, rfl⟩
      · show (s.updTrack id (fun x => { x with mute := v })).trackField id (fun x => x.mute) = v
        exact trackField_updTrack_found s id t _ _ (fun x => rfl) ht
  | trackPan id =>
    cases hs : subscribed s (Addr.trackPan id) with
    | false =>
      rw [dispatch_not_subscribed s _ v hs]
      exact ⟨fun pe hpe => absurd hpe (List.not_mem_nil pe), fun hne => absurd rfl hne⟩
    | true =>
      have hsub : s.tracks.any (fun x => x.id == id) = true := by simpa [subscribed] using hs
      obtain ⟨t, ht⟩ := findTrack_of_any s id hsub
      rw [dispatch_trackPan_eq s id t v ht]
      refine ⟨?_, fun _ => ?_⟩
      · intro pe hpe
        simp only [trackEvts, List.mem_cons, List.not_mem_nil, or_false] at hpe
        rcases hpe with rfl | rfl <;> exact ⟨rfl, rfl⟩
      · show (s.updTrack id (fun x => { x with pan := v })).trackField id (fun x => x.pan) = v
        exact trackField_updTrack_found s id t _ _ (fun x => rfl) ht
  | trackVolume id =>
    cases hs : subscribed s (Addr.trackVolume id) with
    | false =>
      rw [dispatch_not_subscribed s _ v hs]
      exact ⟨fun pe hpe => absurd hpe (List.not_mem_nil pe), fun hne => absurd rfl hne⟩
    | true =>
      have hsub : s.tracks.any (fun x => x.id == id) = true := by simpa [subscribed] using hs
      obtain ⟨t, ht⟩ := findTrack_of_any s id hsub
      rw [dispatch_trackVolume_eq s id t v ht]
      refine ⟨?_, fun _ => ?_⟩
      · intro pe hpe
        simp only [trackEvts, List.mem_cons, List.not_mem_nil, or_false] at hpe
        rcases hpe with rfl | rfl <;> exact ⟨rfl, rfl⟩
      · show (s.updTrack id (fun x => { x with volume := v })).trackField id (fun x => x.volume) = v
        exact trackField_updTrack_found s id t _ _ (fun x => rfl) ht
  | trackVu id =>
    cases hs : subscribed s (Addr.trackVu id) with
    | false =>
      rw [dispatch_not_subscribed s _ v hs]
      exact ⟨fun pe hpe => absurd hpe (List.not_mem_nil pe), fun hne => absurd rfl hne⟩
    | true =>
      have hsub : s.tracks.any (fun x => x.id == id) = true := by simpa [subscribed] using hs
      obtain ⟨t, ht⟩ := findTrack_of_any s id hsub
      rw [dispatch_trackVu_eq s id t v ht]
      refine ⟨?_, fun _ => ?_⟩
      · intro pe hpe
        simp only [trackEvts, List.mem_cons, List.not_mem_nil, or_false] at hpe
        rcases hpe with rfl | rfl <;> exact ⟨rfl, rfl⟩
      · show (s.updTrack id (fun x => { x with vu := v })).trackField id (fun x => x.vu) = v
        exact trackField_updTrack_found s id t _ _ (fun x => rfl) ht
  | trackSelected id =>
    cases hs : subscribed s (Addr.trackSelected id) with
    | false =>
      rw [dispatch_not_subscribed s _ v hs]
      exact ⟨fun pe hpe => absurd hpe (List.not_mem_nil pe), fun hne => absurd rfl hne⟩
    | true =>
      have hsub : s.tracks.any (fun x => x.id == id) = true := by simpa [subscribed] using hs
      obtain ⟨t, ht⟩ := findTrack_of_any s id hsub
      rw [dispatch_trackSelected_eq s id t v ht]
      refine ⟨?_, fun _ => ?_⟩
      · intro pe hpe
        simp only [trackEvts, List.mem_cons, List.not_mem_nil, or_false] at hpe
        rcases hpe with rfl | rfl <;> exact ⟨rfl, rfl⟩
      · show (s.updTrack id (fun x => { x with selected := v })).trackField id (fun x => x.selected) = v
        exact trackField_updTrack_found s id t _ _ (fun x => rfl) ht
  | sendName id i =>
    cases hs : subscribed s (Addr.sendName id i) with
    | false =>
      rw [dispatch_not_subscribed s _ v hs]
      exact ⟨fun pe hpe => absurd hpe (List.not_mem_nil pe), fun hne => absurd rfl hne⟩
    | true =>
      have hs' : s.tracks.any (fun x => x.id == id) = true ∧ i < 6 := by
        simpa [subscribed] using hs
      obtain ⟨t, ht⟩ := findTrack_of_any s id hs'.1
      rw [dispatch_sendName_eq s id i t v ht hs'.2]
      refine ⟨?_, fun _ => ?_⟩
      · intro pe hpe
        simp only [sendEvts, List.mem_cons, List.not_mem_nil, or_false] at hpe
        rcases hpe with rfl | rfl <;> exact ⟨rfl, rfl⟩
      · show (s.updTrack id
            (fun x => { x with sends := modifyAt i (fun sl => { sl with name := v }) x.sends })).trackField id
            (fun x => match x.sends.get? i with
                      | some sl => sl.name
                      | none => JSValue.undef) = v
        rw [trackField_updTrack_found s id t
          (fun x => { x with sends := modifyAt i (fun sl => { sl with name := v }) x.sends })
          (fun x => match x.sends.get? i with
                    | some sl => sl.name
                    | none => JSValue.undef)
          (fun x => rfl) ht]
        show (match (modifyAt i (fun sl => { sl with name := v }) t.sends).get? i with
              | some sl => sl.name
              | none => JSValue.undef) = v
        rw [get?_modifyAt]
        have ht' : s.tracks.find? (fun x => x.id == id) = some t := ht
        have hlen : t.sends.length = 6 := by
          simpa using List.all_eq_true.mp h6 t (List.mem_of_find?_eq_some ht')
        have hi : i < 6 := hs'.2
        cases hget : t.sends.get? i with
        | none =>
          rw [List.get?_eq_none] at hget
          omega
        | some sl => rfl
  | sendVolume id i =>
    cases hs : subscribed s (Addr.sendVolume id i) with
    | false =>
      rw [dispatch_not_subscribed s _ v hs]
      exact ⟨fun pe hpe => absurd hpe (List.not_mem_nil pe), fun hne => absurd rfl hne⟩
    | true =>
      have hs' : s.tracks.any (fun x => x.id == id) = true ∧ i < 6 := by
        simpa [subscribed] using hs
      obtain ⟨t, ht⟩ := findTrack_of_any s id hs'.1
      rw [dispatch_sendVolume_eq s id i t v ht hs'.2]
      refine ⟨?_, fun _ => ?_⟩
      · intro pe hpe
        simp only [sendEvts, List.mem_cons, List.not_mem_nil, or_false] at hpe
        rcases hpe with rfl | rfl <;> exact ⟨rfl, rfl⟩
      · show (s.updTrack id
            (fun x => { x with sends := modifyAt i (fun sl => { sl with volume := v }) x.sends })).trackField id
            (fun x => match x.sends.get? i with
                      | some sl => sl.volume
                      | none => JSValue.undef) = v
        rw [trackField_updTrack_found s id t
          (fun x => { x with sends := modifyAt i (fun sl => { sl with volume := v }) x.sends })
          (fun x => match x.sends.get? i with
                    | some sl => sl.volume
                    | none => JSValue.undef)
          (fun x => rfl) ht]
        show (match (modifyAt i (fun sl => { sl with volume := v }) t.sends).get? i with
              | some sl => sl.volume
              | none => JSValue.undef) = v
        rw [get?_modifyAt]
        have ht' : s.tracks.find? (fun x => x.id == id) = some t := ht
        have hlen : t.sends.length = 6 := by
          simpa using List.all_eq_true.mp h6 t (List.mem_of_find?_eq_some ht')
        have hi : i < 6 := hs'.2
        cases hget : t.sends.get? i with
        | none =>
          rw [List.get?_eq_none] at hget
          omega
        | some sl => rfl
  | slotIndex tid cid =>
    cases hs : subscribed s (Addr.slotIndex tid cid) with
    | false =>
      rw [dispatch_not_subscribed s _ v hs]
      exact ⟨fun pe hpe => absurd hpe (List.not_mem_nil pe), fun hne => absurd rfl hne⟩
    | true =>
      have hsub : s.tracks.any (fun x => x.id == tid && x.clips.any (fun y => y.id == cid)) = true := by
        simpa [subscribed] using hs
      obtain ⟨t, c, ht, hc⟩ := find_slot_of_any s tid cid hu hsub
      rw [dispatch_slotIndex_eq s tid cid t c v ht hc]
      refine ⟨?_, fun _ => ?_⟩
      · intro pe hpe
        simp only [clipEvts, List.mem_cons, List.not_mem_nil, or_false] at hpe
        rcases hpe with rfl | rfl <;> exact ⟨rfl, rfl⟩
      · show (s.updTrack tid (fun x => x.updClip cid (fun y => { y with index := v }))).clipField tid cid
            (fun y => y.index) = v
        exact clipField_updClip_found s tid cid t c _ _ (fun y => rfl) ht hc
  | slotIsSelected tid cid =>
    cases hs : subscribed s (Addr.slotIsSelected tid cid) with
    | false =>
      rw [dispatch_not_subscribed s _ v hs]
      exact ⟨fun pe hpe => absurd hpe (List.not_mem_nil pe), fun hne => absurd rfl hne⟩
    | true =>
      have hsub : s.tracks.any (fun x => x.id == tid && x.clips.any (fun y => y.id == cid)) = true := by
        simpa [subscribed] using hs
      obtain ⟨t, c, ht, hc⟩ := find_slot_of_any s tid cid hu hsub
      rw [dispatch_slotIsSelected_eq s tid cid t c v ht hc]
      refine ⟨?_, fun _ => ?_⟩
      · intro pe hpe
        simp only [clipEvts, List.mem_cons, List.not_mem_nil, or_false] at hpe
        rcases hpe with rfl | rfl <;> exact ⟨rfl, rfl⟩
      · show (s.updTrack tid (fun x => x.updClip cid (fun y => { y with isSelected := v }))).clipField tid cid
            (fun y => y.isSelected) = v
        exact clipField_updClip_found s tid cid t c _ _ (fun y => rfl) ht hc
  | slotHasContent tid cid =>
    cases hs : subscribed s (Addr.slotHasContent tid cid) with
    | false =>
      rw [dispatch_not_subscribed s _ v hs]
      exact ⟨fun pe hpe => absurd hpe (List.not_mem_nil pe), fun hne => absurd rfl hne⟩
    | true =>
      have hsub : s.tracks.any (fun x => x.id == tid && x.clips.any (fun y => y.id == cid)) = true := by
        simpa [subscribed] using hs
      obtain ⟨t, c, ht, hc⟩ := find_slot_of_any s tid cid hu hsub
      rw [dispatch_slotHasContent_eq s tid cid t c v ht hc]
      refine ⟨?_, fun _ => ?_⟩
      · intro pe hpe
        simp only [clipEvts, List.mem_cons, List.not_mem_nil, or_false] at hpe
        rcases hpe with rfl | rfl <;> exact ⟨rfl, rfl⟩
      · show (s.updTrack tid (fun x => x.updClip cid (fun y => { y with hasContent := v }))).clipField tid cid
            (fun y => y.hasContent) = v
        exact clipField_updClip_found s tid cid t c _ _ (fun y => rfl) ht hc
  | slotIsPlaying tid cid =>
    cases hs : subscribed s (Addr.slotIsPlaying tid cid) with
    | false =>
      rw [dispatch_not_subscribed s _ v hs]
      exact ⟨fun pe hpe => absurd hpe (List.not_mem_nil pe), fun hne => absurd rfl hne⟩
    | true =>
      have hsub : s.tracks.any (fun x => x.id == tid && x.clips.any (fun y => y.id == cid)) = true := by
        simpa [subscribed] using hs
      obtain ⟨t, c, ht, hc⟩ := find_slot_of_any s tid cid hu hsub
      rw [dispatch_slotIsPlaying_eq s tid cid t c v ht hc]
      refine ⟨?_, fun _ => ?_⟩
      · intro pe hpe
        simp only [clipEvts, List.mem_cons, List.not_mem_nil, or_false] at hpe
        rcases hpe with rfl | rfl <;> exact ⟨rfl, rfl⟩
      · show (s.updTrack tid (fun x => x.updClip cid (fun y => { y with isPlaying := v }))).clipField tid cid
            (fun y => y.isPlaying) = v
        exact clipField_updClip_found s tid cid t c _ _ (fun y => rfl) ht hc
  | slotIsRecording tid cid =>
    cases hs : subscribed s (Addr.slotIsRecording tid cid) with
    | false =>
      rw [dispatch_not_subscribed s _ v hs]
      exact ⟨fun pe hpe => absurd hpe (List.not_mem_nil pe), fun hne => absurd rfl hne⟩
    | true =>
      have hsub : s.tracks.any (fun x => x.id == tid && x.clips.any (fun y => y.id == cid)) = true := by
        simpa [subscribed] using hs
      obtain ⟨t, c, ht, hc⟩ := find_slot_of_any s tid cid hu hsub
      rw [dispatch_slotIsRecording_eq s tid cid t c v ht hc]
      refine ⟨?_, fun _ => ?_⟩
      · intro pe hpe
        simp only [clipEvts, List.mem_cons, List.not_mem_nil, or_false] at hpe
        rcases hpe with rfl | rfl <;> exact ⟨rfl, rfl⟩
      · show (s.updTrack tid (fun x => x.updClip cid (fun y => { y with isRecording := v }))).clipField tid cid
            (fun y => y.isRecording) = v
        exact clipField_updClip_found s tid cid t c _ _ (fun y => rfl) ht hc
  | slotIsQueued tid cid =>
    cases hs : subscribed s (Addr.slotIsQueued tid cid) with
    | false =>
      rw [dispatch_not_subscribed s _ v hs]
      exact ⟨fun pe hpe => absurd hpe (List.not_mem_nil pe), fun hne => absurd rfl hne⟩
    | true =>
      have hsub : s.tracks.any (fun x => x.id == tid && x.clips.any (fun y => y.id == cid)) = true := by
        simpa [subscribed] using hs
      obtain ⟨t, c, ht, hc⟩ := find_slot_of_any s tid cid hu hsub
      rw [dispatch_slotIsQueued_eq s tid cid t c v ht hc]
      refine ⟨?_, fun _ => ?_⟩
      · intro pe hpe
        simp only [clipEvts, List.mem_cons, List.not_mem_nil, or_false] at hpe
        rcases hpe with rfl | rfl <;> exact ⟨rfl, rfl⟩
      · show (s.updTrack tid (fun x => x.updClip cid (fun y => { y with isQueued := v }))).clipField tid cid
            (fun y => y.isQueued) = v
        exact clipField_updClip_found s tid cid t c _ _ (fun y => rfl) ht hc

theorem c1_amended_emit_precedes_assignment_witness :
    nodupIds Song.init.tracks = true ∧
    Song.init.tracks.all (fun x => x.sends.length == 6) = true ∧
    (∀ pe ∈ (dispatch Song.init Addr.play (JSValue.num 1)).2,
      pe.1 = Song.init ∧ pe.2.params.value = JSValue.num 1) := by
  refine ⟨by decide, by decide, ?_⟩
  exact (c1_amended_emit_precedes_assignment Song.init Addr.play (JSValue.num 1)
    (by decide) (by decide)).1

/-- C5 (counterexample): delivering one inbound /play message to the
constructed session emits exactly ONE event, on the Session registry under
the bare name play — there is no separate local-registry event and no
namespaced key — contradicting the claim that every supported field address
emits one local event plus one Session event under an entityKind:fieldName
key. -/
theorem c5_counterexample_session_single_event :
    (dispatch Song.init Addr.play (JSValue.num 1)).2.map
      (fun pe => (pe.2.registry, pe.2.name)) = [(Registry.session, "play")] := by
  decide

/-- C5 (amended): for Track and Clip field addresses, one inbound message
updates exactly that one field of that one entity and emits exactly two
events — one on the entity's local registry under the field name, then one
on the Session registry under the track:/clip:-namespaced key — both
carrying the payload as value and the field's pre-update value as prev (its
initial value on the first update).  The Session's own fields instead emit
exactly ONE event, on the Session registry under the bare field name, with
the same value/prev discipline.  Send and device-parameter sub-field
addresses are outside the whole-entity event pattern. -/
theorem c5_amended_per_address_events (s : Song) (v : JSValue) (id cid : Nat)
    (t : Track) (c : Clip)
    (ht : s.findTrack id = some t) (hc : t.findClip cid = some c) :
    (dispatch s .play v =
      ({ s with playing := v }, [(s, ⟨.session, "play", { value := v, prev := s.playing }⟩)]) ∧
     dispatch s .record v =
      ({ s with recording := v }, [(s, ⟨.session, "record", { value := v, prev := s.recording }⟩)]) ∧
     dispatch s .click v =
      ({ s with click := v }, [(s, ⟨.session, "click", { value := v, prev := s.click }⟩)]) ∧
     dispatch s .masterSolo v =
      ({ s with solo := v }, [(s, ⟨.session, "solo", { value := v, prev := s.solo }⟩)]) ∧
     dispatch s .masterMute v =
      ({ s with mute := v }, [(s, ⟨.session, "mute", { value := v, prev := s.mute }⟩)]) ∧
     dispatch s .masterRecarm v =
      ({ s with recarm := v }, [(s, ⟨.session, "recarm", { value := v, prev := s.recarm }⟩)]) ∧
     dispatch s .masterVolume v =
      ({ s with volume := v }, [(s, ⟨.session, "volume", { value := v, prev := s.volume }⟩)]) ∧
     dispatch s .masterPan v =
      ({ s with pan := v }, [(s, ⟨.session, "pan", { value := v, prev := s.pan }⟩)]) ∧
     dispatch s .masterSelected v =
      ({ s with selected := v }, [(s, ⟨.session, "selected", { value := v, prev := s.selected }⟩)])) ∧
    (dispatch s (.trackSolo id) v =
      (s.updTrack id (fun x => { x with solo := v }), trackEvts s id "solo" v t.solo) ∧
     dispatch s (.trackRecarm id) v =
      (s.updTrack id (fun x => { x with recarm := v }), trackEvts s id "recarm" v t.recarm) ∧
     dispatch s (.trackMute id) v =
      (s.updTrack id (fun x => { x with mute := v }), trackEvts s id "mute" v t.mute) ∧
     dispatch s (.trackPan id) v =
      (s.updTrack id (fun x => { x with pan := v }), trackEvts s id "pan" v t.pan) ∧
     dispatch s (.trackVolume id) v =
      (s.updTrack id (fun x => { x with volume := v }), trackEvts s id "volume" v t.volume) ∧
     dispatch s (.trackVu id) v =
      (s.updTrack id (fun x => { x with vu := v }), trackEvts s id "vu" v t.vu) ∧
     dispatch s (.trackSelected id) v =
      (s.updTrack id (fun x => { x with selected := v }), trackEvts s id "selected" v t.selected)) ∧
    (dispatch s (.slotIndex id cid) v =
      (s.updTrack id (fun x => x.updClip cid (fun y => { y with index := v })),
       clipEvts s id cid "index" v c.index) ∧
     dispatch s (.slotIsSelected id cid) v =
      (s.updTrack id (fun x => x.updClip cid (fun y => { y with isSelected := v })),
       clipEvts s id cid "isSelected" v c.isSelected) ∧
     dispatch s (.slotHasContent id cid) v =
      (s.updTrack id (fun x => x.updClip cid (fun y => { y with hasContent := v })),
       clipEvts s id cid "hasContent" v c.hasContent) ∧
     dispatch s (.slotIsPlaying id cid) v =
      (s.updTrack id (fun x => x.updClip cid (fun y => { y with isPlaying := v })),
       clipEvts s id cid "isPlaying" v c.isPlaying) ∧
     dispatch s (.slotIsRecording id cid) v =
      (s.updTrack id (fun x => x.updClip cid (fun y => { y with isRecording := v })),
       clipEvts s id cid "isRecording" v c.isRecording) ∧
     dispatch s (.slotIsQueued id cid) v =
      (s.updTrack id (fun x => x.updClip cid (fun y => { y with isQueued := v })),
       clipEvts s id cid "isQueued" v c.isQueued)) :=
  ⟨⟨dispatch_play_eq s v, dispatch_record_eq s v, dispatch_click_eq s v,
    dispatch_masterSolo_eq s v, dispatch_masterMute_eq s v, dispatch_masterRecarm_eq s v,
    dispatch_masterVolume_eq s v, dispatch_masterPan_eq s v, dispatch_masterSelected_eq s v⟩,
   ⟨dispatch_trackSolo_eq s id t v ht, dispatch_trackRecarm_eq s id t v ht,
    dispatch_trackMute_eq s id t v ht, dispatch_trackPan_eq s id t v ht,
    dispatch_trackVolume_eq s id t v ht, dispatch_trackVu_eq s id t v ht,
    dispatch_trackSelected_eq s id t v ht⟩,
   ⟨dispatch_slotIndex_eq s id cid t c v ht hc, dispatch_slotIsSelected_eq s id cid t c v ht hc,
    dispatch_slotHasContent_eq s id cid t c v ht hc, dispatch_slotIsPlaying_eq s id cid t c v ht hc,
    dispatch_slotIsRecording_eq s id cid t c v ht hc, dispatch_slotIsQueued_eq s id cid t c v ht hc⟩⟩

theorem c5_amended_per_address_events_witness :
    Song.init.findTrack 1 = some (Track.init 1) ∧
    (Track.init 1).findClip 0 = some (Clip.init 1 0) ∧
    dispatch Song.init (Addr.trackVolume 1) (JSValue.num 7) =
      (Song.init.updTrack 1 (fun x => { x with volume := JSValue.num 7 }),
       trackEvts Song.init 1 "volume" (JSValue.num 7) (JSValue.num 0)) := by
  refine ⟨by decide, by decide, ?_⟩
  exact (c5_amended_per_address_events Song.init (JSValue.num 7) 1 0 (Track.init 1)
    (Clip.init 1 0) (by decide) (by decide)).2.1.2.2.2.2.1

/-- C6: delivering inbound message M1 and then M2 on the same entity field
address produces the events of M1 followed by the events of M2 (each
dispatch is nonempty), every M1 event carries value = M1's payload, and
every M2 event carries value = M2's payload and prev = M1's payload. -/
theorem c6_second_prev_is_first_value (s : Song) (a : Addr) (v1 v2 : JSValue)
    (ha : entityFieldAddr a = true) (hs : subscribed s a = true)
    (hu : nodupIds s.tracks = true) :
    (dispatch s a v1).2 ≠ [] ∧
    (dispatch (dispatch s a v1).1 a v2).2 ≠ [] ∧
    (∀ pe ∈ (dispatch s a v1).2, pe.2.params.value = v1) ∧
    (∀ pe ∈ (dispatch (dispatch s a v1).1 a v2).2,
      pe.2.params.value = v2 ∧ pe.2.params.prev = v1) := by
  cases a with
  | play =>
    rw [dispatch_play_eq, dispatch_play_eq]
    refine ⟨by simp, by simp, ?_, ?_⟩
    · intro pe hpe
      rw [List.mem_singleton] at hpe
      subst hpe
      rfl
    · intro pe hpe
      rw [List.mem_singleton] at hpe
      subst hpe
      exact ⟨rfl, rfl⟩
  | record =>
    rw [dispatch_record_eq, dispatch_record_eq]
    refine ⟨by simp, by simp, ?_, ?_⟩
    · intro pe hpe
      rw [List.mem_singleton] at hpe
      subst hpe
      rfl
    · intro pe hpe
      rw [List.mem_singleton] at hpe
      subst hpe
      exact ⟨rfl, rfl⟩
  | click =>
    rw [dispatch_click_eq, dispatch_click_eq]
    refine ⟨by simp, by simp, ?_, ?_⟩
    · intro pe hpe
      rw [List.mem_singleton] at hpe
      subst hpe
      rfl
    · intro pe hpe
      rw [List.mem_singleton] at hpe
      subst hpe
      exact ⟨rfl, rfl⟩
  | masterSolo =>
    rw [dispatch_masterSolo_eq, dispatch_masterSolo_eq]
    refine ⟨by simp, by simp, ?_, ?_⟩
    · intro pe hpe
      rw [List.mem_singleton] at hpe
      subst hpe
      rfl
    · intro pe hpe
      rw [List.mem_singleton] at hpe
      subst hpe
      exact ⟨rfl, rfl⟩
  | masterMute =>
    rw [dispatch_masterMute_eq, dispatch_masterMute_eq]
    refine ⟨by simp, by simp, ?_, ?_⟩
    · intro pe hpe
      rw [List.mem_singleton] at hpe
      subst hpe
      rfl
    · intro pe hpe
      rw [List.mem_singleton] at hpe
      subst hpe
      exact ⟨rfl, rfl⟩
  | masterRecarm =>
    rw [dispatch_masterRecarm_eq, dispatch_masterRecarm_eq]
    refine ⟨by simp, by simp, ?_, ?_⟩
    · intro pe hpe
      rw [List.mem_singleton] at hpe
      subst hpe
      rfl
    · intro pe hpe
      rw [List.mem_singleton] at hpe
      subst hpe
      exact ⟨rfl, rfl⟩
  | masterVolume =>
    rw [dispatch_masterVolume_eq, dispatch_masterVolume_eq]
    refine ⟨by simp, by simp, ?_, ?_⟩
    · intro pe hpe
      rw [List.mem_singleton] at hpe
      subst hpe
      rfl
    · intro pe hpe
      rw [List.mem_singleton] at hpe
      subst hpe
      exact ⟨rfl, rfl⟩
  | masterPan =>
    rw [dispatch_masterPan_eq, dispatch_masterPan_eq]
    refine ⟨by simp, by simp, ?_, ?_⟩
    · intro pe hpe
      rw [List.mem_singleton] at hpe
      subst hpe
      rfl
    · intro pe hpe
      rw [List.mem_singleton] at hpe
      subst hpe
      exact ⟨rfl, rfl⟩
  | masterSelected =>
    rw [dispatch_masterSelected_eq, dispatch_masterSelected_eq]
    refine ⟨by simp, by simp, ?_, ?_⟩
    · intro pe hpe
      rw [List.mem_singleton] at hpe
      subst hpe
      rfl
    · intro pe hpe
      rw [List.mem_singleton] at hpe
      subst hpe
      exact ⟨rfl, rfl⟩
  | fxparamName i => simp [entityFieldAddr] at ha
  | fxparamValue i => simp [entityFieldAddr] at ha
  | trackName id => simp [entityFieldAddr] at ha
  | sendName id i => simp [entityFieldAddr] at ha
  | sendVolume id i => simp [entityFieldAddr] at ha
  | trackSolo id =>
    have hsub : s.tracks.any (fun x => x.id == id) = true := by simpa [subscribed] using hs
    obtain ⟨t, ht⟩ := findTrack_of_any s id hsub
    have ht2 : (s.updTrack id (fun x => { x with solo := v1 })).findTrack id =
        some { t with solo := v1 } := by
      rw [findTrack_updTrack s id (fun x => { x with solo := v1 }) (fun x => rfl), ht]
      rfl
    rw [dispatch_trackSolo_eq s id t v1 ht, dispatch_trackSolo_eq _ id _ v2 ht2]
    refine ⟨by simp [trackEvts], by simp [trackEvts], ?_, ?_⟩
    · intro pe hpe
      simp only [trackEvts, List.mem_cons, List.not_mem_nil, or_false] at hpe
      rcases hpe with rfl | rfl <;> rfl
    · intro pe hpe
      simp only [trackEvts, List.mem_cons, List.not_mem_nil, or_false] at hpe
      rcases hpe with rfl | rfl <;> exact ⟨rfl, rfl⟩
  | trackRecarm id =>
    have hsub : s.tracks.any (fun x => x.id == id) = true := by simpa [subscribed] using hs
    obtain ⟨t, ht⟩ := findTrack_of_any s id hsub
    have ht2 : (s.updTrack id (fun x => { x with recarm := v1 })).findTrack id =
        some { t with recarm := v1 } := by
      rw [findTrack_updTrack s id (fun x => { x with recarm := v1 }) (fun x => rfl), ht]
      rfl
    rw [dispatch_trackRecarm_eq s id t v1 ht, dispatch_trackRecarm_eq _ id _ v2 ht2]
    refine ⟨by simp [trackEvts], by simp [trackEvts], ?_, ?_⟩
    · intro pe hpe
      simp only [trackEvts, List.mem_cons, List.not_mem_nil, or_false] at hpe
      rcases hpe with rfl | rfl <;> rfl
    · intro pe hpe
      simp only [trackEvts, List.mem_cons, List.not_mem_nil, or_false] at hpe
      rcases hpe with rfl | rfl <;> exact ⟨rfl, rfl⟩
  | trackMute id =>
    have hsub : s.tracks.any (fun x => x.id == id) = true := by simpa [subscribed] using hs
    obtain ⟨t, ht⟩ := findTrack_of_any s id hsub
    have ht2 : (s.updTrack id (fun x => { x with mute := v1 })).findTrack id =
        some { t with mute := v1 } := by
      rw [findTrack_updTrack s id (fun x => { x with mute := v1 }) (fun x => rfl), ht]
      rfl
    rw [dispatch_trackMute_eq s id t v1 ht, dispatch_trackMute_eq _ id _ v2 ht2]
    refine ⟨by simp [trackEvts], by simp [trackEvts], ?_, ?_⟩
    · intro pe hpe
      simp only [trackEvts, List.mem_cons, List.not_mem_nil, or_false] at hpe
      rcases hpe with rfl | rfl <;> rfl
    · intro pe hpe
      simp only [trackEvts, List.mem_cons, List.not_mem_nil, or_false] at hpe
      rcases hpe with rfl | rfl <;> exact ⟨rfl, rfl⟩
  | trackPan id =>
    have hsub : s.tracks.any (fun x => x.id == id) = true := by simpa [subscribed] using hs
    obtain ⟨t, ht⟩ := findTrack_of_any s id hsub
    have ht2 : (s.updTrack id (fun x => { x with pan := v1 })).findTrack id =
        some { t with pan := v1 } := by
      rw [findTrack_updTrack s id (fun x => { x with pan := v1 }) (fun x => rfl), ht]
      rfl
    rw [dispatch_trackPan_eq s id t v1 ht, dispatch_trackPan_eq _ id _ v2 ht2]
    refine ⟨by simp [trackEvts], by simp [trackEvts], ?_, ?_⟩
    · intro pe hpe
      simp only [trackEvts, List.mem_cons, List.not_mem_nil, or_false] at hpe
      rcases hpe with rfl | rfl <;> rfl
    · intro pe hpe
      simp only [trackEvts, List.mem_cons, List.not_mem_nil, or_false] at hpe
      rcases hpe with rfl | rfl <;> exact ⟨rfl, rfl⟩
  | trackVolume id =>
    have hsub : s.tracks.any (fun x => x.id == id) = true := by simpa [subscribed] using hs
    obtain ⟨t, ht⟩ := findTrack_of_any s id hsub
    have ht2 : (s.updTrack id (fun x => { x with volume := v1 })).findTrack id =
        some { t with volume := v1 } := by
      rw [findTrack_updTrack s id (fun x => { x with volume := v1 }) (fun x => rfl), ht]
      rfl
    rw [dispatch_trackVolume_eq s id t v1 ht, dispatch_trackVolume_eq _ id _ v2 ht2]
    refine ⟨by simp [trackEvts], by simp [trackEvts], ?_, ?_⟩
    · intro pe hpe
      simp only [trackEvts, List.mem_cons, List.not_mem_nil, or_false] at hpe
      rcases hpe with rfl | rfl <;> rfl
    · intro pe hpe
      simp only [trackEvts, List.mem_cons, List.not_mem_nil, or_false] at hpe
      rcases hpe with rfl | rfl <;> exact ⟨rfl, rfl⟩
  | trackVu id =>
    have hsub : s.tracks.any (fun x => x.id == id) = true := by simpa [subscribed] using hs
    obtain ⟨t, ht⟩ := findTrack_of_any s id hsub
    have ht2 : (s.updTrack id (fun x => { x with vu := v1 })).findTrack id =
        some { t with vu := v1 } := by
      rw [findTrack_updTrack s id (fun x => { x with vu := v1 }) (fun x => rfl), ht]
      rfl
    rw [dispatch_trackVu_eq s id t v1 ht, dispatch_trackVu_eq _ id _ v2 ht2]
    refine ⟨by simp [trackEvts], by simp [trackEvts], ?_, ?_⟩
    · intro pe hpe
      simp only [trackEvts, List.mem_cons, List.not_mem_nil, or_false] at hpe
      rcases hpe with rfl | rfl <;> rfl
    · intro pe hpe
      simp only [trackEvts, List.mem_cons, List.not_mem_nil, or_false] at hpe
      rcases hpe with rfl | rfl <;> exact ⟨rfl, rfl⟩
  | trackSelected id =>
    have hsub : s.tracks.any (fun x => x.id == id) = true := by simpa [subscribed] using hs
    obtain ⟨t, ht⟩ := findTrack_of_any s id hsub
    have ht2 : (s.updTrack id (fun x => { x with selected := v1 })).findTrack id =
        some { t with selected := v1 } := by
      rw [findTrack_updTrack s id (fun x => { x with selected := v1 }) (fun x => rfl), ht]
      rfl
    rw [dispatch_trackSelected_eq s id t v1 ht, dispatch_trackSelected_eq _ id _ v2 ht2]
    refine ⟨by simp [trackEvts], by simp [trackEvts], ?_, ?_⟩
    · intro pe hpe
      simp only [trackEvts, List.mem_cons, List.not_mem_nil, or_false] at hpe
      rcases hpe with rfl | rfl <;> rfl
    · intro pe hpe
      simp only [trackEvts, List.mem_cons, List.not_mem_nil, or_false] at hpe
      rcases hpe with rfl | rfl <;> exact ⟨rfl, rfl⟩
  | slotIndex tid cid =>
    have hsub : s.tracks.any (fun x => x.id == tid && x.clips.any (fun y => y.id == cid)) = true := by
      simpa [subscribed] using hs
    obtain ⟨t, c, ht, hc⟩ := find_slot_of_any s tid cid hu hsub
    have ht2 : (s.updTrack tid (fun x => x.updClip cid (fun y => { y with index := v1 }))).findTrack tid =
        some (t.updClip cid (fun y => { y with index := v1 })) := by
      rw [findTrack_updTrack s tid (fun x => x.updClip cid (fun y => { y with index := v1 })) (fun x => rfl), ht]
      rfl
    have hc2 : (t.updClip cid (fun y => { y with index := v1 })).findClip cid =
        some { c with index := v1 } := by
      rw [findClip_updClip t cid (fun y => { y with index := v1 }) (fun y => rfl), hc]
      rfl
    rw [dispatch_slotIndex_eq s tid cid t c v1 ht hc,
        dispatch_slotIndex_eq _ tid cid _ _ v2 ht2 hc2]
    refine ⟨by simp [clipEvts], by simp [clipEvts], ?_, ?_⟩
    · intro pe hpe
      simp only [clipEvts, List.mem_cons, List.not_mem_nil, or_false] at hpe
      rcases hpe with rfl | rfl <;> rfl
    · intro pe hpe
      simp only [clipEvts, List.mem_cons, List.not_mem_nil, or_false] at hpe
      rcases hpe with rfl | rfl <;> exact ⟨rfl, rfl⟩
  | slotIsSelected tid cid =>
    have hsub : s.tracks.any (fun x => x.id == tid && x.clips.any (fun y => y.id == cid)) = true := by
      simpa [subscribed] using hs
    obtain ⟨t, c, ht, hc⟩ := find_slot_of_any s tid cid hu hsub
    have ht2 : (s.updTrack tid (fun x => x.updClip cid (fun y => { y with isSelected := v1 }))).findTrack tid =
        some (t.updClip cid (fun y => { y with isSelected := v1 })) := by
      rw [findTrack_updTrack s tid (fun x => x.updClip cid (fun y => { y with isSelected := v1 })) (fun x => rfl), ht]
      rfl
    have hc2 : (t.updClip cid (fun y => { y with isSelected := v1 })).findClip cid =
        some { c with isSelected := v1 } := by
      rw [findClip_updClip t cid (fun y => { y with isSelected := v1 }) (fun y => rfl), hc]
      rfl
    rw [dispatch_slotIsSelected_eq s tid cid t c v1 ht hc,
        dispatch_slotIsSelected_eq _ tid cid _ _ v2 ht2 hc2]
    refine ⟨by simp [clipEvts], by simp [clipEvts], ?_, ?_⟩
    · intro pe hpe
      simp only [clipEvts, List.mem_cons, List.not_mem_nil, or_false] at hpe
      rcases hpe with rfl | rfl <;> rfl
    · intro pe hpe
      simp only [clipEvts, List.mem_cons, List.not_mem_nil, or_false] at hpe
      rcases hpe with rfl | rfl <;> exact ⟨rfl, rfl⟩
  | slotHasContent tid cid =>
    have hsub : s.tracks.any (fun x => x.id == tid && x.clips.any (fun y => y.id == cid)) = true := by
      simpa [subscribed] using hs
    obtain ⟨t, c, ht, hc⟩ := find_slot_of_any s tid cid hu hsub
    have ht2 : (s.updTrack tid (fun x => x.updClip cid (fun y => { y with hasContent := v1 }))).findTrack tid =
        some (t.updClip cid (fun y => { y with hasContent := v1 })) := by
      rw [findTrack_updTrack s tid (fun x => x.updClip cid (fun y => { y with hasContent := v1 })) (fun x => rfl), ht]
      rfl
    have hc2 : (t.updClip cid (fun y => { y with hasContent := v1 })).findClip cid =
        some { c with hasContent := v1 } := by
      rw [findClip_updClip t cid (fun y => { y with hasContent := v1 }) (fun y => rfl), hc]
      rfl
    rw [dispatch_slotHasContent_eq s tid cid t c v1 ht hc,
        dispatch_slotHasContent_eq _ tid cid _ _ v2 ht2 hc2]
    refine ⟨by simp [clipEvts], by simp [clipEvts], ?_, ?_⟩
    · intro pe hpe
      simp only [clipEvts, List.mem_cons, List.not_mem_nil, or_false] at hpe
      rcases hpe with rfl | rfl <;> rfl
    · intro pe hpe
      simp only [clipEvts, List.mem_cons, List.not_mem_nil, or_false] at hpe
      rcases hpe with rfl | rfl <;> exact ⟨rfl, rfl⟩
  | slotIsPlaying tid cid =>
    have hsub : s.tracks.any (fun x => x.id == tid && x.clips.any (fun y => y.id == cid)) = true := by
      simpa [subscribed] using hs
    obtain ⟨t, c, ht, hc⟩ := find_slot_of_any s tid cid hu hsub
    have ht2 : (s.updTrack tid (fun x => x.updClip cid (fun y => { y with isPlaying := v1 }))).findTrack tid =
        some (t.updClip cid (fun y => { y with isPlaying := v1 })) := by
      rw [findTrack_updTrack s tid (fun x => x.updClip cid (fun y => { y with isPlaying := v1 })) (fun x => rfl), ht]
      rfl
    have hc2 : (t.updClip cid (fun y => { y with isPlaying := v1 })).findClip cid =
        some { c with isPlaying := v1 } := by
      rw [findClip_updClip t cid (fun y => { y with isPlaying := v1 }) (fun y => rfl), hc]
      rfl
    rw [dispatch_slotIsPlaying_eq s tid cid t c v1 ht hc,
        dispatch_slotIsPlaying_eq _ tid cid _ _ v2 ht2 hc2]
    refine ⟨by simp [clipEvts], by simp [clipEvts], ?_, ?_⟩
    · intro pe hpe
      simp only [clipEvts, List.mem_cons, List.not_mem_nil, or_false] at hpe
      rcases hpe with rfl | rfl <;> rfl
    · intro pe hpe
      simp only [clipEvts, List.mem_cons, List.not_mem_nil, or_false] at hpe
      rcases hpe with rfl | rfl <;> exact ⟨rfl, rfl⟩
  | slotIsRecording tid cid =>
    have hsub : s.tracks.any (fun x => x.id == tid && x.clips.any (fun y => y.id == cid)) = true := by
      simpa [subscribed] using hs
    obtain ⟨t, c, ht, hc⟩ := find_slot_of_any s tid cid hu hsub
    have ht2 : (s.updTrack tid (fun x => x.updClip cid (fun y => { y with isRecording := v1 }))).findTrack tid =
        some (t.updClip cid (fun y => { y with isRecording := v1 })) := by
      rw [findTrack_updTrack s tid (fun x => x.updClip cid (fun y => { y with isRecording := v1 })) (fun x => rfl), ht]
      rfl
    have hc2 : (t.updClip cid (fun y => { y with isRecording := v1 })).findClip cid =
        some { c with isRecording := v1 } := by
      rw [findClip_updClip t cid (fun y => { y with isRecording := v1 }) (fun y => rfl), hc]
      rfl
    rw [dispatch_slotIsRecording_eq s tid cid t c v1 ht hc,
        dispatch_slotIsRecording_eq _ tid cid _ _ v2 ht2 hc2]
    refine ⟨by simp [clipEvts], by simp [clipEvts], ?_, ?_⟩
    · intro pe hpe
      simp only [clipEvts, List.mem_cons, List.not_mem_nil, or_false] at hpe
      rcases hpe with rfl | rfl <;> rfl
    · intro pe hpe
      simp only [clipEvts, List.mem_cons, List.not_mem_nil, or_false] at hpe
      rcases hpe with rfl | rfl <;> exact ⟨rfl, rfl⟩
  | slotIsQueued tid cid =>
    have hsub : s.tracks.any (fun x => x.id == tid && x.clips.any (fun y => y.id == cid)) = true := by
      simpa [subscribed] using hs
    obtain ⟨t, c, ht, hc⟩ := find_slot_of_any s tid cid hu hsub
    have ht2 : (s.updTrack tid (fun x => x.updClip cid (fun y => { y with isQueued := v1 }))).findTrack tid =
        some (t.updClip cid (fun y => { y with isQueued := v1 })) := by
      rw [findTrack_updTrack s tid (fun x => x.updClip cid (fun y => { y with isQueued := v1 })) (fun x => rfl), ht]
      rfl
    have hc2 : (t.updClip cid (fun y => { y with isQueued := v1 })).findClip cid =
        some { c with isQueued := v1 } := by
      rw [findClip_updClip t cid (fun y => { y with isQueued := v1 }) (fun y => rfl), hc]
      rfl
    rw [dispatch_slotIsQueued_eq s tid cid t c v1 ht hc,
        dispatch_slotIsQueued_eq _ tid cid _ _ v2 ht2 hc2]
    refine ⟨by simp [clipEvts], by simp [clipEvts], ?_, ?_⟩
    · intro pe hpe
      simp only [clipEvts, List.mem_cons, List.not_mem_nil, or_false] at hpe
      rcases hpe with rfl | rfl <;> rfl
    · intro pe hpe
      simp only [clipEvts, List.mem_cons, List.not_mem_nil, or_false] at hpe
      rcases hpe with rfl | rfl <;> exact ⟨rfl, rfl⟩

theorem c6_second_prev_is_first_value_witness :
    entityFieldAddr Addr.play = true ∧ subscribed Song.init Addr.play = true ∧
    nodupIds Song.init.tracks = true ∧
    (∀ pe ∈ (dispatch (dispatch Song.init Addr.play (JSValue.num 1)).1
        Addr.play (JSValue.num 0)).2,
      pe.2.params.value = JSValue.num 0 ∧ pe.2.params.prev = JSValue.num 1) := by
  refine ⟨rfl, rfl, by decide, ?_⟩
  exact (c6_second_prev_is_first_value Song.init Addr.play (JSValue.num 1) (JSValue.num 0)
    rfl rfl (by decide)).2.2.2

end Osc4Bitwig
